import Mathlib

/-! # Window-system bridge (winsys-qt.cpp), recorder interface (FfmpegRecorder.h)
and video player widget (VideoPlayerWidget.cpp)

A shallow embedding of `android/skin/qt/winsys-qt.cpp`.

* The file-local statics (`GlobalState`, `sMainLoopShouldExit`) and the
  `QSettings` store are carried in `State`.
* Everything a call reads from outside the file (the two singleton
  instances, the identity of the calling thread, the platform, the outcome
  of platform calls) is an `Env`, given afresh to every call.
* Everything a call does to the outside (window methods, semaphores,
  library calls) is appended to `State.log` as an `Event`, in program order.
* `D(...)` debug prints are not modelled.
* C `int` values are only copied by winsys-qt.cpp, never computed with, so
  they are `Int` there. VideoPlayerWidget.cpp computes with `int` and
  `float`: its operations are rounded to `float` and checked against the
  range of `int`.
-/

namespace WinsysQt

/-! ## Values passed through the C surface -/

/-- The struct `SkinRect` of android/skin/rect.h, flattened:
`pos.x`, `pos.y`, `size.w`, `size.h`. -/
structure SkinRect where
  pos_x : Int
  pos_y : Int
  size_w : Int
  size_h : Int
  deriving DecidableEq, Repr

/-- The Qt value class `QRect`, by the four accessors the file reads. -/
structure QRect where
  left : Int
  top : Int
  width : Int
  height : Int
  deriving DecidableEq, Repr

/-- The `void* data` argument of a `SkinGenericFunction`. -/
inductive VoidPtr
  | null
  | params (Message Title : String)
  | addr (a : Nat)
  deriving DecidableEq, Repr

/-- A `SkinGenericFunction` function pointer: either the non-capturing
lambda `showDialog` of `skin_winsys_error_dialog`, or a function of the
caller, known by its address only. -/
inductive SkinGenericFunction
  | showDialog
  | fn (a : Nat)
  deriving DecidableEq, Repr

/-- What running a unit of work on the UI thread does. -/
inductive UiEffect
  | showErrorDialog (message title : String)
  | call (a : Nat) (data : VoidPtr)
  | setClipboardCallbacks (agent : Nat)
  | setIgnoreWheelEvent (b : Bool)
  | switchClipboardSharing (b : Bool)
  deriving DecidableEq, Repr

/-- The call `f(data)`. The lambda `showDialog` casts `data` back to
`Params*` and calls `showErrorDialog(params->Message, params->Title)`; it is
only ever handed `&params`. -/
def SkinGenericFunction.call : SkinGenericFunction → VoidPtr → List UiEffect
  | .showDialog, .params m t => [.showErrorDialog m t]
  | .showDialog, _ => []
  | .fn a, d => [.call a d]

/-! ## The settings store -/

/-- The keys of `Ui::Settings` (qt-settings.h) that the file uses. -/
inductive SettingsKey
  | GLESBACKEND_PREFERENCE
  | GLESAPILEVEL_PREFERENCE
  | DISABLE_MOUSE_WHEEL
  | CLIPBOARD_SHARING
  deriving DecidableEq, Repr

/-- The Qt value class `QVariant`, for the two kinds of value the file
stores or reads. -/
inductive QVariant
  | int (n : Int)
  | bool (b : Bool)
  deriving DecidableEq, Repr

/-- The conversion `QVariant::toInt()`. -/
def QVariant.toInt : QVariant → Int
  | .int n => n
  | .bool b => if b then 1 else 0

/-- The conversion `QVariant::toBool()`. -/
def QVariant.toBool : QVariant → Bool
  | .int n => n != 0
  | .bool b => b

/-- The platform user-settings store behind `QSettings settings;`: the
stored entries, at most one per key. -/
abbrev QSettings := List (SettingsKey × QVariant)

/-- The call `settings.value(key, defaultValue)`. -/
def QSettings.value (settings : QSettings) (key : SettingsKey) (defaultValue : QVariant) :
    QVariant :=
  match settings.lookup key with
  | some v => v
  | none => defaultValue

/-- The call `settings.setValue(key, value)`. -/
def QSettings.setValue (settings : QSettings) (key : SettingsKey) (value : QVariant) :
    QSettings :=
  (key, value) :: settings.filter (fun e => e.1 != key)

/-- The C enum `WinsysPreferredGlesBackend` (winsys.h), as its `int` value. -/
abbrev WinsysPreferredGlesBackend := Int

/-- The C enum `WinsysPreferredGlesApiLevel` (winsys.h), as its `int` value. -/
abbrev WinsysPreferredGlesApiLevel := Int

/-! ## The environment of a call -/

/-- Modelled from the spec: the class `EmulatorQtWindow`
(emulator-qt-window.h) is not among the sources. A live window is
represented by the values its query methods report into their output
arguments. -/
structure EmulatorQtWindow where
  windowPos : Int × Int
  windowSize : Int × Int
  framePos : Int × Int
  frameSize : Int × Int
  hasFrame : Bool
  fullyVisible : Bool
  offScreen : Bool
  screenDimensions : QRect
  devicePixelRatio : Rat
  windowId : Nat
  deriving DecidableEq, Repr

/-- The build platform selected by the `#ifdef`s of the file. -/
inductive Platform
  | linux
  | windows
  | darwin
  deriving DecidableEq, Repr

/-- What a call reads from outside the file. -/
structure Env where
  /-- The result of `EmulatorQtWindow::getInstance()`. -/
  window : Option EmulatorQtWindow
  /-- Whether `EmulatorNoQtNoWindow::getInstance()` is non-null. -/
  noQtNoWindow : Bool
  /-- The result of `onMainQtThread()`. -/
  onMainQtThread : Bool
  platform : Platform
  /-- The screen size the platform query of `skin_winsys_get_monitor_rect`
  yields; `none` when `XOpenDisplay` or `DefaultScreenOfDisplay` gives null. -/
  platformScreen : Option (Int × Int)
  /-- Whether `SetEvent` / `kill` reports failure. -/
  wakeupFails : Bool
  /-- The result of `toolWindow()->clipboardSharingSupported()`. -/
  clipboardSharingSupported : Bool
  deriving DecidableEq, Repr

/-! ## Effects -/

/-- The member functions of `EmulatorQtWindow` called with an optional
`QSemaphore*`, or with none. -/
inductive WindowMethod
  | getScreenDimensions
  | getDevicePixelRatio
  | getWindowId
  | getWindowPos
  | getWindowSize
  | getFramePos
  | getFrameSize
  | windowHasFrame
  | setDeviceGeometry (r : QRect)
  | isWindowFullyVisible
  | isWindowOffScreen
  | requestClose
  | setWindowIcon (data : List Nat) (size : Nat)
  | setWindowPos (x y : Int)
  | setWindowSize (w h : Int)
  | setWindowCursorResize (which_corner : Int)
  | paintWindowOverlayForResize (mouse_x mouse_y : Int)
  | setWindowOverlayForResize (which_corner : Int)
  | clearWindowOverlay
  | setWindowCursorNormal
  | setTitle (title : String)
  | updateRotation (rotation : Int)
  | showVirtualSceneControls (s : Bool)
  | startThread (f : Nat) (argc : Int) (argv : List String)
  deriving DecidableEq, Repr

/-- The closures handed to `EmulatorQtWindow::runOnUiThread`. -/
inductive UiWork
  /-- The closure `[f, data]() { f(data); }` of `skin_winsys_run_ui_update`. -/
  | generic (f : SkinGenericFunction) (data : VoidPtr)
  /-- The closure `[agent, window] { ... }` of `skin_winsys_set_ui_agent`. -/
  | earlyInit (agent : Nat)
  deriving DecidableEq, Repr

/-- The library calls other than window methods, by name. -/
inductive LibCall
  | QtLogger_stop
  | deleteApp
  | atexitDeleteApp
  | setLibraryPaths
  | qInstallMessageHandler
  | XInitThreads
  | setAttributeHighDpiPixmaps
  | androidQtDefaultInit
  | EmulatorNoQtNoWindow_create
  | EmulatorQtWindow_create
  | macQuitMenu
  | newSnapshotPageShow
  | enableSigChild
  | appExec
  | CreateEvent
  | ToolWindow_earlyInitialization (agent : Nat)
  | ToolWindow_onMainLoopStart
  | noQtNoWindow_requestClose
  | noQtNoWindow_startThread (f : Nat) (argc : Int) (argv : List String)
  | wakeup
  | waitForWakeup
  | stderr (msg : String)
  deriving DecidableEq, Repr

/-- One externally visible action of a call. `sem` tells whether the
address of a semaphore (`true`) or `nullptr` / no argument (`false`) was
passed. -/
inductive Event
  /-- The declaration `QSemaphore semaphore;`. -/
  | semaphoreNew
  /-- The call `semaphore.acquire()`. -/
  | semaphoreAcquire
  | windowCall (m : WindowMethod) (sem : Bool)
  | runOnUiThread (work : UiWork) (sem : Bool)
  | lib (c : LibCall)
  deriving DecidableEq, Repr

/-! ## The state owned by the file -/

/-- The object `new QApplication(g->argc, g->argv)`. -/
structure QApplication where
  argc : Int
  argv : List String
  deriving DecidableEq, Repr

/-- The struct `GlobalState`. -/
structure GlobalState where
  argc : Int
  argv : List String
  app : Option QApplication
  geo_saved : Bool
  window_geo_x : Int
  window_geo_y : Int
  window_geo_w : Int
  window_geo_h : Int
  frame_geo_x : Int
  frame_geo_y : Int
  frame_geo_w : Int
  frame_geo_h : Int
  deriving DecidableEq, Repr

/-- The initial value of `sGlobalState` in `globalState()`. -/
def globalState : GlobalState where
  argc := 0
  argv := []
  app := none
  geo_saved := false
  window_geo_x := 0
  window_geo_y := 0
  window_geo_w := 0
  window_geo_h := 0
  frame_geo_x := 0
  frame_geo_y := 0
  frame_geo_w := 0
  frame_geo_h := 0

/-- The mutable state the file owns or writes. -/
structure State where
  g : GlobalState
  sMainLoopShouldExit : Bool
  settings : QSettings
  log : List Event
  deriving DecidableEq, Repr

/-- The state at program start: the static initialisers, an arbitrary
settings store, nothing done yet. -/
def State.initial (settings : QSettings) : State where
  g := globalState
  sMainLoopShouldExit := false
  settings := settings
  log := []

/-- Append actions to the log. -/
def State.emit (s : State) (es : List Event) : State :=
  { s with log := s.log ++ es }

/-! ## The operations, in source order -/

/-- One return of the wait in the windowless main loop. -/
structure Wakeup where
  /-- Whether `sigprocmask(SIG_BLOCK, ...)` reported failure before this
  wait (never on Windows, where the call is not made). -/
  sigprocmaskFails : Bool
  /-- Whether `skin_winsys_quit_request` ran on another thread, setting
  `sMainLoopShouldExit`, before this wait returned. -/
  quitRequested : Bool
  deriving DecidableEq, Repr

/-- The `while (1)` loop of `skin_winsys_enter_main_loop`, over the
wake-ups that occur; `none` when the thread is still waiting after the last
of them. -/
def waitLoop (env : Env) : List Wakeup → State → Option State
  | [], _ => none
  | k :: ks, s =>
    if env.platform != .windows && k.sigprocmaskFails then
      some (s.emit [.lib (.stderr "sigprocmask() failed!")])
    else
      let s1 := { s.emit [.lib .waitForWakeup] with
                  sMainLoopShouldExit := s.sMainLoopShouldExit || k.quitRequested }
      if s1.sMainLoopShouldExit then some s1 else waitLoop env ks s1

/-- The function `skin_winsys_enter_main_loop(no_window)`; `none` when it
has not returned after the given wake-ups. With a window the Qt event loop
`g->app->exec()` is a library call. -/
def skin_winsys_enter_main_loop (env : Env) (s : State) (no_window : Bool)
    (wakeups : List Wakeup) : Option State :=
  if no_window then
    let s0 := if env.platform == .windows then s.emit [.lib .CreateEvent] else s
    match waitLoop env wakeups s0 with
    | none => none
    | some s1 =>
      if env.noQtNoWindow then some (s1.emit [.lib .noQtNoWindow_requestClose]) else some s1
  else
    let s0 := if env.platform == .darwin then s.emit [.lib .enableSigChild] else s
    some (s0.emit [.lib .appExec])

/-- The function `skin_winsys_get_monitor_rect(rect)`: the final `*rect`. -/
def skin_winsys_get_monitor_rect (env : Env) (s : State) (rect : SkinRect) :
    State × SkinRect :=
  let s0 := s.emit [.semaphoreNew]
  match env.window with
  | some window =>
    let qrect := window.screenDimensions
    (s0.emit [.windowCall .getScreenDimensions true, .semaphoreAcquire],
      { pos_x := qrect.left, pos_y := qrect.top, size_w := qrect.width, size_h := qrect.height })
  | none =>
    match env.platformScreen with
    | some (w, h) => (s0, { pos_x := 0, pos_y := 0, size_w := w, size_h := h })
    | none => (s0, { rect with pos_x := 0, pos_y := 0 })

/-- The function `skin_winsys_get_device_pixel_ratio(dpr)`: the return
value and the final `*dpr`. -/
def skin_winsys_get_device_pixel_ratio (env : Env) (s : State) (dpr : Rat) :
    State × Int × Rat :=
  match env.window with
  | none => (s, -1, dpr)
  | some window =>
    if env.onMainQtThread then
      (s.emit [.windowCall .getDevicePixelRatio false], 0, window.devicePixelRatio)
    else
      (s.emit [.semaphoreNew, .windowCall .getDevicePixelRatio true, .semaphoreAcquire],
        0, window.devicePixelRatio)

/-- The function `skin_winsys_get_window_handle()`; `none` is `NULL`. -/
def skin_winsys_get_window_handle (env : Env) (s : State) : State × Option Nat :=
  match env.window with
  | none => (s, none)
  | some window => (s.emit [.windowCall .getWindowId false], some window.windowId)

/-- The function `skin_winsys_get_window_pos(x, y)`: the final `*x`, `*y`. -/
def skin_winsys_get_window_pos (env : Env) (s : State) (_x _y : Int) : State × Int × Int :=
  let g := s.g
  if g.geo_saved then
    (s, g.window_geo_x, g.window_geo_y)
  else
    match env.window with
    | none => (s, 0, 0)
    | some window =>
      if env.onMainQtThread then
        (s.emit [.windowCall .getWindowPos false], window.windowPos)
      else
        (s.emit [.semaphoreNew, .windowCall .getWindowPos true, .semaphoreAcquire],
          window.windowPos)

/-- The function `skin_winsys_get_window_size(w, h)`: the final `*w`, `*h`. -/
def skin_winsys_get_window_size (env : Env) (s : State) (_w _h : Int) : State × Int × Int :=
  let g := s.g
  if g.geo_saved then
    (s, g.window_geo_w, g.window_geo_h)
  else
    match env.window with
    | none => (s, 0, 0)
    | some window =>
      if env.onMainQtThread then
        (s.emit [.windowCall .getWindowSize false], window.windowSize)
      else
        (s.emit [.semaphoreNew, .windowCall .getWindowSize true, .semaphoreAcquire],
          window.windowSize)

/-- The function `skin_winsys_get_frame_pos(x, y)`: the final `*x`, `*y`. -/
def skin_winsys_get_frame_pos (env : Env) (s : State) (_x _y : Int) : State × Int × Int :=
  let g := s.g
  if g.geo_saved then
    (s, g.frame_geo_x, g.frame_geo_y)
  else
    match env.window with
    | none => (s, 0, 0)
    | some window =>
      if env.onMainQtThread then
        (s.emit [.windowCall .getFramePos false], window.framePos)
      else
        (s.emit [.semaphoreNew, .windowCall .getFramePos true, .semaphoreAcquire],
          window.framePos)

/-- The function `skin_winsys_get_frame_size(w, h)`: the final `*w`, `*h`. -/
def skin_winsys_get_frame_size (env : Env) (s : State) (_w _h : Int) : State × Int × Int :=
  let g := s.g
  if g.geo_saved then
    (s, g.frame_geo_w, g.frame_geo_h)
  else
    match env.window with
    | none => (s, 0, 0)
    | some window =>
      if env.onMainQtThread then
        (s.emit [.windowCall .getFrameSize false], window.frameSize)
      else
        (s.emit [.semaphoreNew, .windowCall .getFrameSize true, .semaphoreAcquire],
          window.frameSize)

/-- The function `skin_winsys_window_has_frame()`. -/
def skin_winsys_window_has_frame (env : Env) (s : State) : State × Bool :=
  let s0 := s.emit [.semaphoreNew]
  match env.window with
  | none => (s0, false)
  | some window =>
    (s0.emit [.windowCall .windowHasFrame true, .semaphoreAcquire], window.hasFrame)

/-- The function `skin_winsys_set_device_geometry(rect)`. -/
def skin_winsys_set_device_geometry (env : Env) (s : State) (rect : SkinRect) : State :=
  match env.window with
  | none => s
  | some _ =>
    let qrect : QRect :=
      { left := rect.pos_x, top := rect.pos_y, width := rect.size_w, height := rect.size_h }
    s.emit [.windowCall (.setDeviceGeometry qrect) false]

/-- The function `skin_winsys_save_window_geo()`. -/
def skin_winsys_save_window_geo (env : Env) (s : State) : State :=
  let (s1, x, y) := skin_winsys_get_window_pos env s 0 0
  let (s2, w, h) := skin_winsys_get_window_size env s1 0 0
  let (s3, frameX, frameY) := skin_winsys_get_frame_pos env s2 0 0
  let (s4, frameW, frameH) := skin_winsys_get_frame_size env s3 0 0
  { s4 with
    g := { s4.g with
           geo_saved := true
           window_geo_x := x
           window_geo_y := y
           window_geo_w := w
           window_geo_h := h
           frame_geo_x := frameX
           frame_geo_y := frameY
           frame_geo_w := frameW
           frame_geo_h := frameH } }

/-- The function `skin_winsys_is_window_fully_visible()`. -/
def skin_winsys_is_window_fully_visible (env : Env) (s : State) : State × Bool :=
  match env.window with
  | none => (s, true)
  | some window =>
    if env.onMainQtThread then
      (s.emit [.windowCall .isWindowFullyVisible false], window.fullyVisible)
    else
      (s.emit [.semaphoreNew, .windowCall .isWindowFullyVisible true, .semaphoreAcquire],
        window.fullyVisible)

/-- The function `skin_winsys_is_window_off_screen()`. -/
def skin_winsys_is_window_off_screen (env : Env) (s : State) : State × Bool :=
  match env.window with
  | none => (s, true)
  | some window =>
    if env.onMainQtThread then
      (s.emit [.windowCall .isWindowOffScreen false], window.offScreen)
    else
      (s.emit [.semaphoreNew, .windowCall .isWindowOffScreen true, .semaphoreAcquire],
        window.offScreen)

/-- The function `skin_winsys_get_preferred_gles_backend()`. -/
def skin_winsys_get_preferred_gles_backend (s : State) : WinsysPreferredGlesBackend :=
  (s.settings.value .GLESBACKEND_PREFERENCE (.int 0)).toInt

/-- The function `skin_winsys_set_preferred_gles_backend(backend)`. -/
def skin_winsys_set_preferred_gles_backend (s : State) (backend : WinsysPreferredGlesBackend) :
    State :=
  { s with settings := s.settings.setValue .GLESBACKEND_PREFERENCE (.int backend) }

/-- The function `skin_winsys_override_glesbackend_if_auto(backend)`; the
enumerator `WINSYS_GLESBACKEND_PREFERENCE_AUTO` of winsys.h is a parameter. -/
def skin_winsys_override_glesbackend_if_auto
    (WINSYS_GLESBACKEND_PREFERENCE_AUTO : WinsysPreferredGlesBackend) (s : State)
    (backend : WinsysPreferredGlesBackend) : WinsysPreferredGlesBackend :=
  let currentPreferred := skin_winsys_get_preferred_gles_backend s
  if currentPreferred == WINSYS_GLESBACKEND_PREFERENCE_AUTO then backend else currentPreferred

/-- The function `skin_winsys_get_preferred_gles_apilevel()`. -/
def skin_winsys_get_preferred_gles_apilevel (s : State) : WinsysPreferredGlesApiLevel :=
  (s.settings.value .GLESAPILEVEL_PREFERENCE (.int 0)).toInt

/-- The function `skin_winsys_quit_request()`. -/
def skin_winsys_quit_request (env : Env) (s : State) : State :=
  match env.window with
  | some _ => s.emit [.windowCall .requestClose false]
  | none =>
    if env.noQtNoWindow then
      let s1 := { s with sMainLoopShouldExit := true }
      if env.wakeupFails then
        s1.emit [.lib .wakeup,
          .lib (.stderr (if env.platform == .windows then "SetEvent() failed!"
                         else "kill() failed!"))]
      else
        s1.emit [.lib .wakeup]
    else s

/-- The function `skin_winsys_destroy()`. On macOS the deletion of the
application object is deferred to `atexit`. -/
def skin_winsys_destroy (env : Env) (s : State) : State :=
  let s0 := s.emit [.lib .QtLogger_stop]
  if env.platform == .darwin then
    s0.emit [.lib .atexitDeleteApp]
  else
    { s0.emit [.lib .deleteApp] with g := { s0.g with app := none } }

/-- The shape shared by the commands that fetch the window, return when it
is null and otherwise call one window method with `nullptr` (or with no
semaphore argument). -/
def windowCommand (env : Env) (s : State) (m : WindowMethod) : State :=
  match env.window with
  | none => s
  | some _ => s.emit [.windowCall m false]

/-- The function `skin_winsys_set_window_icon(data, size)`. -/
def skin_winsys_set_window_icon (env : Env) (s : State) (data : List Nat) (size : Nat) :
    State :=
  windowCommand env s (.setWindowIcon data size)

/-- The function `skin_winsys_set_window_pos(x, y)`. -/
def skin_winsys_set_window_pos (env : Env) (s : State) (x y : Int) : State :=
  windowCommand env s (.setWindowPos x y)

/-- The function `skin_winsys_set_window_size(w, h)`. -/
def skin_winsys_set_window_size (env : Env) (s : State) (w h : Int) : State :=
  windowCommand env s (.setWindowSize w h)

/-- The function `skin_winsys_set_window_cursor_resize(which_corner)`. -/
def skin_winsys_set_window_cursor_resize (env : Env) (s : State) (which_corner : Int) :
    State :=
  windowCommand env s (.setWindowCursorResize which_corner)

/-- The function `skin_winsys_paint_overlay_for_resize(mouse_x, mouse_y)`. -/
def skin_winsys_paint_overlay_for_resize (env : Env) (s : State) (mouse_x mouse_y : Int) :
    State :=
  windowCommand env s (.paintWindowOverlayForResize mouse_x mouse_y)

/-- The function `skin_winsys_set_window_overlay_for_resize(which_corner)`. -/
def skin_winsys_set_window_overlay_for_resize (env : Env) (s : State) (which_corner : Int) :
    State :=
  windowCommand env s (.setWindowOverlayForResize which_corner)

/-- The function `skin_winsys_clear_window_overlay()`. -/
def skin_winsys_clear_window_overlay (env : Env) (s : State) : State :=
  windowCommand env s .clearWindowOverlay

/-- The function `skin_winsys_set_window_cursor_normal()`. -/
def skin_winsys_set_window_cursor_normal (env : Env) (s : State) : State :=
  windowCommand env s .setWindowCursorNormal

/-- The function `skin_winsys_set_window_title(title)`. -/
def skin_winsys_set_window_title (env : Env) (s : State) (title : String) : State :=
  windowCommand env s (.setTitle title)

/-- The function `skin_winsys_update_rotation(rotation)`. -/
def skin_winsys_update_rotation (env : Env) (s : State) (rotation : Int) : State :=
  windowCommand env s (.updateRotation rotation)

/-- The function `skin_winsys_show_virtual_scene_controls(show)`. -/
def skin_winsys_show_virtual_scene_controls (env : Env) (s : State) (shown : Bool) : State :=
  windowCommand env s (.showVirtualSceneControls shown)

/-- The function `skin_winsys_spawn_thread(no_window, f, argc, argv)`; the
`StartFunction f` is known by its address. -/
def skin_winsys_spawn_thread (env : Env) (s : State) (no_window : Bool) (f : Nat)
    (argc : Int) (argv : List String) : State :=
  if no_window then
    if env.noQtNoWindow then s.emit [.lib (.noQtNoWindow_startThread f argc argv)] else s
  else
    windowCommand env s (.startThread f argc argv)

/-- The function `skin_winsys_setup_library_paths()`. -/
def skin_winsys_setup_library_paths (s : State) : State :=
  s.emit [.lib .setLibraryPaths]

/-- The function `skin_winsys_init_args(argc, argv)`. -/
def skin_winsys_init_args (s : State) (argc : Int) (argv : List String) : State :=
  { s with g := { s.g with argc := argc, argv := argv } }

/-- The function `skin_winsys_snapshot_control_start()`, up to the Qt
event loop it ends in. -/
def skin_winsys_snapshot_control_start (s : State) : State :=
  let s1 := { s with g := { s.g with app := some { argc := s.g.argc, argv := s.g.argv } } }
  s1.emit [.lib .androidQtDefaultInit, .lib .newSnapshotPageShow, .lib .appExec]

/-- The function `skin_winsys_start(no_window)`. -/
def skin_winsys_start (env : Env) (s : State) (no_window : Bool) : State :=
  let s0 := if env.platform == .linux then s.emit [.lib .XInitThreads] else s
  let s1 := (skin_winsys_setup_library_paths s0).emit [.lib .qInstallMessageHandler]
  if no_window then
    { s1.emit [.lib .EmulatorNoQtNoWindow_create] with g := { s1.g with app := none } }
  else
    let s2 := { s1 with g := { s1.g with app := some { argc := s1.g.argc, argv := s1.g.argv } } }
    let s3 := s2.emit [.lib .setAttributeHighDpiPixmaps, .lib .androidQtDefaultInit,
      .lib .EmulatorQtWindow_create]
    if env.platform == .darwin then s3.emit [.lib .macQuitMenu] else s3

/-- The function `skin_winsys_run_ui_update(f, data, wait)`. -/
def skin_winsys_run_ui_update (env : Env) (s : State) (f : SkinGenericFunction)
    (data : VoidPtr) (wait : Bool) : State :=
  match env.window with
  | none => s
  | some _ =>
    if wait then
      s.emit [.semaphoreNew, .runOnUiThread (.generic f data) true, .semaphoreAcquire]
    else
      s.emit [.runOnUiThread (.generic f data) false]

/-- The function `skin_winsys_error_dialog(message, title)`. -/
def skin_winsys_error_dialog (env : Env) (s : State) (message title : String) : State :=
  let params := VoidPtr.params message title
  skin_winsys_run_ui_update env s .showDialog params true

/-- The function `skin_winsys_set_ui_agent(agent)`; the agent is known by
its address. -/
def skin_winsys_set_ui_agent (env : Env) (s : State) (agent : Nat) : State :=
  let s0 := s.emit [.lib (.ToolWindow_earlyInitialization agent)]
  match env.window with
  | some _ => s0.emit [.runOnUiThread (.earlyInit agent) false]
  | none => s0

/-- The function `skin_winsys_report_entering_main_loop()`. -/
def skin_winsys_report_entering_main_loop (s : State) : State :=
  s.emit [.lib .ToolWindow_onMainLoopStart]

/-- What a closure handed to `runOnUiThread` does when the UI thread runs
it, given the settings store and the environment at that moment. -/
def UiWork.run (env : Env) (settings : QSettings) : UiWork → List UiEffect
  | .generic f data => f.call data
  | .earlyInit agent =>
    let disableMouseWheel := (settings.value .DISABLE_MOUSE_WHEEL (.bool false)).toBool
    let head := [UiEffect.setClipboardCallbacks agent, .setIgnoreWheelEvent disableMouseWheel]
    if !env.clipboardSharingSupported then head
    else
      let enableClipboard := (settings.value .CLIPBOARD_SHARING (.bool true)).toBool
      head ++ [.switchClipboardSharing enableClipboard]

/-! ## Sequences of calls -/

/-- A call of one function of the `skin_winsys_*` surface, with its
arguments. -/
inductive Op
  | get_shared_ptr
  | enter_main_loop (no_window : Bool) (wakeups : List Wakeup)
  | get_monitor_rect (rect : SkinRect)
  | get_device_pixel_ratio (dpr : Rat)
  | get_window_handle
  | get_window_pos (x y : Int)
  | get_window_size (w h : Int)
  | get_frame_pos (x y : Int)
  | get_frame_size (w h : Int)
  | window_has_frame
  | set_device_geometry (rect : SkinRect)
  | save_window_geo
  | is_window_fully_visible
  | is_window_off_screen
  | override_glesbackend_if_auto (auto backend : WinsysPreferredGlesBackend)
  | get_preferred_gles_backend
  | set_preferred_gles_backend (backend : WinsysPreferredGlesBackend)
  | get_preferred_gles_apilevel
  | quit_request
  | destroy
  | set_window_icon (data : List Nat) (size : Nat)
  | set_window_pos (x y : Int)
  | set_window_size (w h : Int)
  | set_window_cursor_resize (which_corner : Int)
  | paint_overlay_for_resize (mouse_x mouse_y : Int)
  | set_window_overlay_for_resize (which_corner : Int)
  | clear_window_overlay
  | set_window_cursor_normal
  | set_window_title (title : String)
  | update_rotation (rotation : Int)
  | show_virtual_scene_controls (shown : Bool)
  | spawn_thread (no_window : Bool) (f : Nat) (argc : Int) (argv : List String)
  | setup_library_paths
  | init_args (argc : Int) (argv : List String)
  | snapshot_control_start
  | start (no_window : Bool)
  | run_ui_update (f : SkinGenericFunction) (data : VoidPtr) (wait : Bool)
  | error_dialog (message title : String)
  | set_ui_agent (agent : Nat)
  | report_entering_main_loop
  deriving DecidableEq, Repr

/-- The state after one call; a result value is dropped. A main loop that
has not returned leaves the state as the loop found it. -/
def Op.run (env : Env) (s : State) : Op → State
  | .get_shared_ptr => s
  | .enter_main_loop no_window wakeups =>
    (skin_winsys_enter_main_loop env s no_window wakeups).getD s
  | .get_monitor_rect rect => (skin_winsys_get_monitor_rect env s rect).1
  | .get_device_pixel_ratio dpr => (skin_winsys_get_device_pixel_ratio env s dpr).1
  | .get_window_handle => (skin_winsys_get_window_handle env s).1
  | .get_window_pos x y => (skin_winsys_get_window_pos env s x y).1
  | .get_window_size w h => (skin_winsys_get_window_size env s w h).1
  | .get_frame_pos x y => (skin_winsys_get_frame_pos env s x y).1
  | .get_frame_size w h => (skin_winsys_get_frame_size env s w h).1
  | .window_has_frame => (skin_winsys_window_has_frame env s).1
  | .set_device_geometry rect => skin_winsys_set_device_geometry env s rect
  | .save_window_geo => skin_winsys_save_window_geo env s
  | .is_window_fully_visible => (skin_winsys_is_window_fully_visible env s).1
  | .is_window_off_screen => (skin_winsys_is_window_off_screen env s).1
  | .override_glesbackend_if_auto _ _ => s
  | .get_preferred_gles_backend => s
  | .set_preferred_gles_backend backend => skin_winsys_set_preferred_gles_backend s backend
  | .get_preferred_gles_apilevel => s
  | .quit_request => skin_winsys_quit_request env s
  | .destroy => skin_winsys_destroy env s
  | .set_window_icon data size => skin_winsys_set_window_icon env s data size
  | .set_window_pos x y => skin_winsys_set_window_pos env s x y
  | .set_window_size w h => skin_winsys_set_window_size env s w h
  | .set_window_cursor_resize c => skin_winsys_set_window_cursor_resize env s c
  | .paint_overlay_for_resize x y => skin_winsys_paint_overlay_for_resize env s x y
  | .set_window_overlay_for_resize c => skin_winsys_set_window_overlay_for_resize env s c
  | .clear_window_overlay => skin_winsys_clear_window_overlay env s
  | .set_window_cursor_normal => skin_winsys_set_window_cursor_normal env s
  | .set_window_title title => skin_winsys_set_window_title env s title
  | .update_rotation rotation => skin_winsys_update_rotation env s rotation
  | .show_virtual_scene_controls shown => skin_winsys_show_virtual_scene_controls env s shown
  | .spawn_thread no_window f argc argv => skin_winsys_spawn_thread env s no_window f argc argv
  | .setup_library_paths => skin_winsys_setup_library_paths s
  | .init_args argc argv => skin_winsys_init_args s argc argv
  | .snapshot_control_start => skin_winsys_snapshot_control_start s
  | .start no_window => skin_winsys_start env s no_window
  | .run_ui_update f data wait => skin_winsys_run_ui_update env s f data wait
  | .error_dialog message title => skin_winsys_error_dialog env s message title
  | .set_ui_agent agent => skin_winsys_set_ui_agent env s agent
  | .report_entering_main_loop => skin_winsys_report_entering_main_loop s

/-- A step of a run: either a call, made in the environment it finds, or a
change made to the settings store from outside the file. `GlobalState` is a
static of the file and has no writer but the calls. -/
inductive Step
  | call (env : Env) (op : Op)
  | settingsChanged (settings : QSettings)
  deriving DecidableEq, Repr

/-- The state after one step. -/
def Step.run (s : State) : Step → State
  | .call env op => op.run env s
  | .settingsChanged settings => { s with settings := settings }

/-- The state after a sequence of steps. -/
def runSteps (s : State) (steps : List Step) : State :=
  steps.foldl Step.run s

/-- The eight cached values of a `GlobalState`: window x, y, w, h and
frame x, y, w, h. -/
def GlobalState.cache (g : GlobalState) : List Int :=
  [g.window_geo_x, g.window_geo_y, g.window_geo_w, g.window_geo_h,
   g.frame_geo_x, g.frame_geo_y, g.frame_geo_w, g.frame_geo_h]

/-! ## Classifying events and calls -/

/-- Whether an event constructs, passes or acquires a `QSemaphore`. -/
def Event.usesSemaphore : Event → Bool
  | .semaphoreNew => true
  | .semaphoreAcquire => true
  | .windowCall _ sem => sem
  | .runOnUiThread _ sem => sem
  | .lib _ => false

/-- The events a call appended to the log of `s` on the way to `s1`. -/
def eventsOf (s s1 : State) : List Event :=
  s1.log.drop s.log.length

/-- The calls whose source declares a `QSemaphore` without consulting
`onMainQtThread()`: `skin_winsys_run_ui_update` with `wait` set,
`skin_winsys_error_dialog` (which calls it so), `skin_winsys_window_has_frame`
and `skin_winsys_get_monitor_rect`. -/
def Op.waitsOnEveryThread : Op → Bool
  | .run_ui_update _ _ wait => wait
  | .error_dialog _ _ => true
  | .window_has_frame => true
  | .get_monitor_rect _ => true
  | _ => false

/-- The log of `s1` is the log of `s` followed by events none of which
constructs, passes or acquires a semaphore. -/
def ExtendsQuietly (s s1 : State) : Prop :=
  s1.log = s.log ++ eventsOf s s1 ∧ ∀ e ∈ eventsOf s s1, e.usesSemaphore = false

instance (s s1 : State) : Decidable (ExtendsQuietly s s1) := by
  unfold ExtendsQuietly; infer_instance

/-! ## Two threads: the caller and the UI thread -/

/-- Whether an event hands work to the window together with the address
of a semaphore. -/
def Event.postsWithSemaphore : Event → Bool
  | .windowCall _ sem => sem
  | .runOnUiThread _ sem => sem
  | _ => false

/-- The calls that, off the UI thread and with a window, take the branch
`QSemaphore semaphore; window->...(..., &semaphore); semaphore.acquire();`
once: `skin_winsys_run_ui_update` with `wait` set and the calls built on
that shape, the queries that test `onMainQtThread()`, and the four geometry
getters while nothing is cached. -/
def Op.blocksOffUiThread (s : State) : Op → Bool
  | .run_ui_update _ _ wait => wait
  | .error_dialog _ _ => true
  | .window_has_frame => true
  | .get_monitor_rect _ => true
  | .get_device_pixel_ratio _ => true
  | .is_window_fully_visible => true
  | .is_window_off_screen => true
  | .get_window_pos _ _ => !s.g.geo_saved
  | .get_window_size _ _ => !s.g.geo_saved
  | .get_frame_pos _ _ => !s.g.geo_saved
  | .get_frame_size _ _ => !s.g.geo_saved
  | _ => false

/-- The two threads involved in a call made off the UI thread. -/
inductive Thread
  | caller
  | ui
  deriving DecidableEq, Repr

/-- Modelled from the spec: the dispatch inside `EmulatorQtWindow`
(emulator-qt-window.cpp) is not among the sources. As section 4.1 has it, a
call made off the UI thread posts its work to the queue of the UI thread,
the UI thread runs posted work in post order, and work posted with a wait
primitive signals it once, on completion. `QSemaphore` is a counting
semaphore: `acquire()` returns only by taking one available release. -/
structure Threads where
  /-- What the calling thread has still to do; empty once the call has
  returned. -/
  pc : List Event
  /-- The releases available on the semaphore of the call. -/
  available : Nat
  /-- The work posted to the UI thread and not yet run, oldest first. -/
  queue : List Event
  /-- The work the UI thread has run, oldest first. -/
  executed : List Event
  deriving DecidableEq, Repr

/-- The moment the call starts, with the events it will go through. -/
def Threads.start (es : List Event) : Threads where
  pc := es
  available := 0
  queue := []
  executed := []

/-- One step of one thread; `none` when that thread cannot move (the
caller has returned or is blocked in `acquire()`, the queue is empty). -/
def Threads.step (t : Threads) : Thread → Option Threads
  | .caller =>
    match t.pc with
    | [] => none
    | .semaphoreNew :: rest => some { t with pc := rest, available := 0 }
    | .semaphoreAcquire :: rest =>
      match t.available with
      | 0 => none
      | n + 1 => some { t with pc := rest, available := n }
    | .windowCall m sem :: rest =>
      some { t with pc := rest, queue := t.queue ++ [.windowCall m sem] }
    | .runOnUiThread work sem :: rest =>
      some { t with pc := rest, queue := t.queue ++ [.runOnUiThread work sem] }
    | .lib _ :: rest => some { t with pc := rest }
  | .ui =>
    match t.queue with
    | [] => none
    | e :: rest =>
      some { t with
             queue := rest
             executed := t.executed ++ [e]
             available := if e.postsWithSemaphore then t.available + 1 else t.available }

/-- The steps of a schedule, one after the other; `none` when the schedule
asks a thread to move that cannot. -/
def Threads.run (t : Threads) : List Thread → Option Threads
  | [] => some t
  | th :: rest =>
    match t.step th with
    | none => none
    | some t1 => t1.run rest

/-- The states the two threads go through during a call whose events are
`semaphoreNew`, `e`, `semaphoreAcquire`. -/
def Threads.during (e : Event) (t : Threads) : Prop :=
  t = ⟨[.semaphoreNew, e, .semaphoreAcquire], 0, [], []⟩ ∨
  t = ⟨[e, .semaphoreAcquire], 0, [], []⟩ ∨
  t = ⟨[.semaphoreAcquire], 0, [e], []⟩ ∨
  t = ⟨[.semaphoreAcquire], 1, [], [e]⟩ ∨
  t = ⟨[], 0, [], [e]⟩

instance (e : Event) (t : Threads) : Decidable (Threads.during e t) := by
  unfold Threads.during; infer_instance

/-! ## The UI thread calling the window itself -/

/-- Whether an event hands work to the window. -/
def Event.isDispatch : Event → Bool
  | .windowCall _ _ => true
  | .runOnUiThread _ _ => true
  | _ => false

/-- The work a call of the surface hands to the window when a window
exists and the caller is the UI thread: for each function, the window
method its source calls, marked `true` where the source passes
`&semaphore` and `false` where it passes `nullptr` or no semaphore. A
getter hands over nothing once the geometry is saved. -/
def Op.dispatches (s : State) : Op → List Event
  | .get_monitor_rect _ => [.windowCall .getScreenDimensions true]
  | .get_device_pixel_ratio _ => [.windowCall .getDevicePixelRatio false]
  | .get_window_handle => [.windowCall .getWindowId false]
  | .get_window_pos _ _ => if s.g.geo_saved then [] else [.windowCall .getWindowPos false]
  | .get_window_size _ _ => if s.g.geo_saved then [] else [.windowCall .getWindowSize false]
  | .get_frame_pos _ _ => if s.g.geo_saved then [] else [.windowCall .getFramePos false]
  | .get_frame_size _ _ => if s.g.geo_saved then [] else [.windowCall .getFrameSize false]
  | .window_has_frame => [.windowCall .windowHasFrame true]
  | .set_device_geometry rect =>
    [.windowCall (.setDeviceGeometry
      { left := rect.pos_x, top := rect.pos_y, width := rect.size_w, height := rect.size_h })
      false]
  | .save_window_geo =>
    if s.g.geo_saved then []
    else [.windowCall .getWindowPos false, .windowCall .getWindowSize false,
          .windowCall .getFramePos false, .windowCall .getFrameSize false]
  | .is_window_fully_visible => [.windowCall .isWindowFullyVisible false]
  | .is_window_off_screen => [.windowCall .isWindowOffScreen false]
  | .quit_request => [.windowCall .requestClose false]
  | .set_window_icon data size => [.windowCall (.setWindowIcon data size) false]
  | .set_window_pos x y => [.windowCall (.setWindowPos x y) false]
  | .set_window_size w h => [.windowCall (.setWindowSize w h) false]
  | .set_window_cursor_resize c => [.windowCall (.setWindowCursorResize c) false]
  | .paint_overlay_for_resize x y => [.windowCall (.paintWindowOverlayForResize x y) false]
  | .set_window_overlay_for_resize c => [.windowCall (.setWindowOverlayForResize c) false]
  | .clear_window_overlay => [.windowCall .clearWindowOverlay false]
  | .set_window_cursor_normal => [.windowCall .setWindowCursorNormal false]
  | .set_window_title title => [.windowCall (.setTitle title) false]
  | .update_rotation rotation => [.windowCall (.updateRotation rotation) false]
  | .show_virtual_scene_controls shown =>
    [.windowCall (.showVirtualSceneControls shown) false]
  | .spawn_thread no_window f argc argv =>
    if no_window then [] else [.windowCall (.startThread f argc argv) false]
  | .run_ui_update f data wait => [.runOnUiThread (.generic f data) wait]
  | .error_dialog message title =>
    [.runOnUiThread (.generic .showDialog (.params message title)) true]
  | .set_ui_agent agent => [.runOnUiThread (.earlyInit agent) false]
  | _ => []

/-- Modelled from the spec: the dispatch inside `EmulatorQtWindow` is not
among the sources. As section 4.1 has it, work handed over by a caller that
is already on the UI thread is executed immediately, before the window
method returns, and work given a wait primitive signals it once on
completion. The other events are the caller's own: a fresh semaphore has
nothing available, and `acquire()` takes one release or never returns
(`none`). -/
def Threads.onUiThread (t : Threads) : Event → Option Threads
  | .semaphoreNew => some { t with available := 0 }
  | .semaphoreAcquire =>
    match t.available with
    | 0 => none
    | n + 1 => some { t with available := n }
  | .windowCall m sem =>
    some { t with
           executed := t.executed ++ [.windowCall m sem]
           available := if sem then t.available + 1 else t.available }
  | .runOnUiThread work sem =>
    some { t with
           executed := t.executed ++ [.runOnUiThread work sem]
           available := if sem then t.available + 1 else t.available }
  | .lib _ => some t

/-- A call made by the UI thread, run through its events to its return;
`none` when it never returns. -/
def Threads.runOnUiThread : List Event → Threads → Option Threads
  | [], t => some { t with pc := [] }
  | e :: rest, t =>
    match ({ t with pc := rest }).onUiThread e with
    | none => none
    | some t1 => Threads.runOnUiThread rest t1

/-! ## Concrete inputs -/

/-- A live window for the examples. -/
def exampleWindow : EmulatorQtWindow where
  windowPos := (100, 50)
  windowSize := (320, 640)
  framePos := (98, 20)
  frameSize := (324, 672)
  hasFrame := true
  fullyVisible := true
  offScreen := false
  screenDimensions := { left := 0, top := 0, width := 1920, height := 1080 }
  devicePixelRatio := 2
  windowId := 7

/-- An environment with a live window, on the UI thread or off it. -/
def exampleEnv (onMainQtThread : Bool) : Env where
  window := some exampleWindow
  noQtNoWindow := false
  onMainQtThread := onMainQtThread
  platform := .linux
  platformScreen := some (1920, 1080)
  wakeupFails := false
  clipboardSharingSupported := true

/-- An environment without a window. -/
def exampleEnvNoWindow : Env :=
  { exampleEnv true with window := none }

end WinsysQt

/-! # The recorder interface (FfmpegRecorder.h) -/

namespace Recording

/-- Modelled from the spec: the class behind the pure-virtual interface
`FfmpegRecorder` (FfmpegRecorder.cpp) is not among the sources. The state
is what section 4.2 and the comments of the header speak of: whether the
output context was created in the constructor, which tracks were added,
whether the recording has started, and whether it has been stopped. -/
structure FfmpegRecorder where
  outputContext : Bool
  videoTrack : Bool
  audioTrack : Bool
  started : Bool
  stopped : Bool
  deriving DecidableEq, Repr

/-- Modelled from the spec: `FfmpegRecorder::create`, not among the
sources. Construction tries to open an output context for the container
format against the path; `opened` is whether that succeeded. -/
def FfmpegRecorder.create (opened : Bool) : FfmpegRecorder where
  outputContext := opened
  videoTrack := false
  audioTrack := false
  started := false
  stopped := false

/-- Modelled from the spec: `isValid()`, not among the sources. The header
has it valid "if, in the constructor, the output context was created
successfully and the recording has either not started or is in progress",
and invalid when "the output context failed to initialize or the recording
has been stopped". -/
def FfmpegRecorder.isValid (r : FfmpegRecorder) : Bool :=
  r.outputContext && !r.stopped

/-- Modelled from the spec: `addVideoTrack(producer, codec)`, not among
the sources. It returns true when the track was added; an invalid recorder
is unusable, and `codecOk` is whether the external library could set the
track up. A failure exposes no partial state. -/
def FfmpegRecorder.addVideoTrack (r : FfmpegRecorder) (codecOk : Bool) :
    FfmpegRecorder × Bool :=
  if r.isValid && codecOk then ({ r with videoTrack := true }, true) else (r, false)

/-- Modelled from the spec: `addAudioTrack(producer, codec)`, not among
the sources; as `addVideoTrack`, for the optional audio track. -/
def FfmpegRecorder.addAudioTrack (r : FfmpegRecorder) (codecOk : Bool) :
    FfmpegRecorder × Bool :=
  if r.isValid && codecOk then ({ r with audioTrack := true }, true) else (r, false)

/-- Modelled from the spec: `start()`, not among the sources. An invalid
recorder rejects it, and "a video track must be supplied in order to start
the recording"; otherwise `libraryOk` is whether the external library
could begin the recording. -/
def FfmpegRecorder.start (r : FfmpegRecorder) (libraryOk : Bool) : FfmpegRecorder × Bool :=
  if r.isValid && r.videoTrack && libraryOk then ({ r with started := true }, true)
  else (r, false)

/-- Modelled from the spec: `stop()`, not among the sources. It flushes and
finalizes the container, after which the recording "has been stopped";
`flushOk` is whether the external library could finalize. -/
def FfmpegRecorder.stop (r : FfmpegRecorder) (flushOk : Bool) : FfmpegRecorder × Bool :=
  ({ r with stopped := true }, r.isValid && r.started && flushOk)

/-- A call on a recorder, with the outcome of the external library where
one is involved. -/
inductive Call
  | isValid
  | start (libraryOk : Bool)
  | stop (flushOk : Bool)
  | addAudioTrack (codecOk : Bool)
  | addVideoTrack (codecOk : Bool)
  deriving DecidableEq, Repr

/-- The recorder after a call, and what the call returned. -/
def Call.run (r : FfmpegRecorder) : Call → FfmpegRecorder × Bool
  | .isValid => (r, r.isValid)
  | .start libraryOk => r.start libraryOk
  | .stop flushOk => r.stop flushOk
  | .addAudioTrack codecOk => r.addAudioTrack codecOk
  | .addVideoTrack codecOk => r.addVideoTrack codecOk

/-- The recorder after a sequence of calls, and each call with what it
returned, in order. -/
def runCalls (r : FfmpegRecorder) : List Call → FfmpegRecorder × List (Call × Bool)
  | [] => (r, [])
  | c :: cs =>
    let (r1, b) := c.run r
    let (r2, rest) := runCalls r1 cs
    (r2, (c, b) :: rest)

/-- Whether some `addVideoTrack` of a history returned true. -/
def videoTrackAdded (history : List (Call × Bool)) : Bool :=
  history.any (fun cb => match cb with
    | (.addVideoTrack _, true) => true
    | _ => false)

end Recording

/-! # The video player widget (VideoPlayerWidget.cpp) -/

namespace VideoPlayer

/-- The calls `syncRenderTargetSize` makes on its own widget. -/
inductive WidgetCall
  | move (x y : Int)
  | setFixedSize (w h : Int)
  deriving DecidableEq, Repr

/-- The nearest integer to `x`, the even one of the two when `x` lies
half-way. -/
def roundHalfEven (x : Rat) : Int :=
  let f := ⌊x⌋
  let d := x - f
  if d < 1 / 2 then f
  else if 1 / 2 < d then f + 1
  else if f % 2 = 0 then f
  else f + 1

/-- The spacing of the `float` values around `q` (IEEE 754 binary32: 24
significant bits, least normal exponent -126). -/
def F32.ulp (q : Rat) : Rat :=
  (2 : Rat) ^ (max (Int.log 2 |q|) (-126) - 23)

/-- The `float` that an exact value is rounded to (round to nearest, ties
to even); `none` when the result is an infinity. -/
def F32.round (q : Rat) : Option Rat :=
  let v := (roundHalfEven (q / F32.ulp q) : Rat) * F32.ulp q
  if |v| < 2 ^ 128 then some v else none

/-- The conversion of an `int` to `float`. -/
def F32.ofInt (n : Int) : Option Rat :=
  F32.round n

/-- The product of two finite `float` values. -/
def F32.mul (a b : Rat) : Option Rat :=
  F32.round (a * b)

/-- The quotient of two finite `float` values; `none` for a division by
zero, which gives an infinity or a NaN. -/
def F32.div (a b : Rat) : Option Rat :=
  if b = 0 then none else F32.round (a / b)

/-- The least value above the range of `int`, 2 to the 31. -/
def intLimit : Int := 2147483648

/-- An exact result of `int` arithmetic; `none` when it leaves the range
of `int`, where the C operation is undefined. -/
def checkedInt (n : Int) : Option Int :=
  if -intLimit ≤ n ∧ n < intLimit then some n else none

/-- The conversion `(int)` of a finite `float`: truncation toward zero;
`none` when the truncated value leaves the range of `int`, where the C
conversion is undefined. -/
def toInt (x : Rat) : Option Int :=
  checkedInt (if 0 ≤ x then ⌊x⌋ else ⌈x⌉)

/-- The function `VideoPlayerWidget::syncRenderTargetSize`: the final
`*resultRenderTargetWidth` and `*resultRenderTargetHeight`, and the calls
made on the widget; `none` when the call runs into an operation that C
leaves undefined. `width` and `height` are what `width()` and `height()`
return during the call, and `sampleAspectRatio` is the value of the finite
`float` argument. Every `float` operation is rounded to `float`. -/
def syncRenderTargetSize (width height : Int) (sampleAspectRatio : Rat)
    (_video_width _video_height : Int)
    (_resultRenderTargetWidth _resultRenderTargetHeight : Int) :
    Option (Int × Int × List WidgetCall) := do
  let h := height
  let hf ← F32.ofInt h
  let p ← F32.mul hf sampleAspectRatio
  let c ← toInt p
  let w := Int.land c (-3)
  let wh ← (if w > width then do
      let wf ← F32.ofInt width
      let q ← F32.div wf sampleAspectRatio
      let c1 ← toInt q
      pure (width, Int.land c1 (-3))
    else pure (w, h) : Option (Int × Int))
  let w := wh.1
  let h := wh.2
  let dx ← checkedInt (width - w)
  let dy ← checkedInt (height - h)
  let x := Int.tdiv dx 2
  let y := Int.tdiv dy 2
  let calls : List WidgetCall :=
    if width ≠ w ∨ height ≠ h then [.move x y, .setFixedSize w h] else []
  pure (w, h, calls)

end VideoPlayer

namespace WinsysQt

/-! ## The geometry cache -/

theorem emit_g (s : State) (es : List Event) : (s.emit es).g = s.g := rfl

theorem waitLoop_g (env : Env) (ks : List Wakeup) :
    ∀ (s s1 : State), waitLoop env ks s = some s1 → s1.g = s.g := by
  induction ks with
  | nil => intro s s1 h; simp [waitLoop] at h
  | cons k ks ih =>
    intro s s1 h
    unfold waitLoop at h
    split at h
    · cases h; rfl
    · simp only [] at h
      split at h
      · cases h; rfl
      · exact (ih _ _ h).trans rfl

theorem enter_main_loop_g (env : Env) (s : State) (no_window : Bool) (ks : List Wakeup) :
    ((skin_winsys_enter_main_loop env s no_window ks).getD s).g = s.g := by
  unfold skin_winsys_enter_main_loop
  cases no_window with
  | false => simp only [Bool.false_eq_true, if_false]; split <;> rfl
  | true =>
    simp only [if_true]
    have h2 : (if (env.platform == Platform.windows) = true
        then s.emit [Event.lib LibCall.CreateEvent] else s).g = s.g := by split <;> rfl
    split
    · rfl
    · next s1 h =>
      have h1 := waitLoop_g env ks _ _ h
      rw [h2] at h1
      split <;> simp [Option.getD, emit_g, h1]

/-- With the geometry saved, a getter is a read of the cache. -/
theorem getters_saved (env : Env) (s : State) (h : s.g.geo_saved = true) (a b : Int) :
    skin_winsys_get_window_pos env s a b = (s, s.g.window_geo_x, s.g.window_geo_y) ∧
    skin_winsys_get_window_size env s a b = (s, s.g.window_geo_w, s.g.window_geo_h) ∧
    skin_winsys_get_frame_pos env s a b = (s, s.g.frame_geo_x, s.g.frame_geo_y) ∧
    skin_winsys_get_frame_size env s a b = (s, s.g.frame_geo_w, s.g.frame_geo_h) := by
  simp [skin_winsys_get_window_pos, skin_winsys_get_window_size, skin_winsys_get_frame_pos,
    skin_winsys_get_frame_size, h]

/-- A getter never writes `GlobalState`. -/
theorem getters_g (env : Env) (s : State) (a b : Int) :
    (skin_winsys_get_window_pos env s a b).1.g = s.g ∧
    (skin_winsys_get_window_size env s a b).1.g = s.g ∧
    (skin_winsys_get_frame_pos env s a b).1.g = s.g ∧
    (skin_winsys_get_frame_size env s a b).1.g = s.g := by
  refine ⟨?_, ?_, ?_, ?_⟩
  · unfold skin_winsys_get_window_pos; simp only []; split
    · rfl
    · split
      · rfl
      · split <;> rfl
  · unfold skin_winsys_get_window_size; simp only []; split
    · rfl
    · split
      · rfl
      · split <;> rfl
  · unfold skin_winsys_get_frame_pos; simp only []; split
    · rfl
    · split
      · rfl
      · split <;> rfl
  · unfold skin_winsys_get_frame_size; simp only []; split
    · rfl
    · split
      · rfl
      · split <;> rfl

/-- With the geometry saved, a save changes nothing at all. -/
theorem save_saved (env : Env) (s : State) (h : s.g.geo_saved = true) :
    skin_winsys_save_window_geo env s = s := by
  obtain ⟨h1, h2, h3, h4⟩ := getters_saved env s h 0 0
  unfold skin_winsys_save_window_geo
  rw [h1]; simp only []
  rw [h2]; simp only []
  rw [h3]; simp only []
  rw [h4]; simp only []
  cases s with
  | mk g f st l =>
    cases g
    simp_all

theorem windowCommand_g (env : Env) (s : State) (m : WindowMethod) :
    (windowCommand env s m).g = s.g := by
  unfold windowCommand; split <;> rfl

/-- The calls that write neither the flag nor the cached values leave
`GlobalState` alone, or write its `argc`, `argv` or `app` only. -/
theorem Op.run_g (env : Env) (s : State) (op : Op) (h : op ≠ .save_window_geo) :
    (op.run env s).g.geo_saved = s.g.geo_saved ∧ (op.run env s).g.cache = s.g.cache := by
  have hg := getters_g env s
  cases op <;> simp only [Op.run]
  case save_window_geo => exact absurd rfl h
  case enter_main_loop => rw [enter_main_loop_g]; exact ⟨rfl, rfl⟩
  case get_window_pos => rw [(hg _ _).1]; exact ⟨rfl, rfl⟩
  case get_window_size => rw [(hg _ _).2.1]; exact ⟨rfl, rfl⟩
  case get_frame_pos => rw [(hg _ _).2.2.1]; exact ⟨rfl, rfl⟩
  case get_frame_size => rw [(hg _ _).2.2.2]; exact ⟨rfl, rfl⟩
  case get_monitor_rect =>
    unfold skin_winsys_get_monitor_rect; simp only []
    split
    · exact ⟨rfl, rfl⟩
    · split <;> exact ⟨rfl, rfl⟩
  case get_device_pixel_ratio =>
    unfold skin_winsys_get_device_pixel_ratio
    split
    · exact ⟨rfl, rfl⟩
    · split <;> exact ⟨rfl, rfl⟩
  case get_window_handle =>
    unfold skin_winsys_get_window_handle; split <;> exact ⟨rfl, rfl⟩
  case window_has_frame =>
    unfold skin_winsys_window_has_frame; simp only []; split <;> exact ⟨rfl, rfl⟩
  case set_device_geometry =>
    unfold skin_winsys_set_device_geometry; split <;> exact ⟨rfl, rfl⟩
  case is_window_fully_visible =>
    unfold skin_winsys_is_window_fully_visible
    split
    · exact ⟨rfl, rfl⟩
    · split <;> exact ⟨rfl, rfl⟩
  case is_window_off_screen =>
    unfold skin_winsys_is_window_off_screen
    split
    · exact ⟨rfl, rfl⟩
    · split <;> exact ⟨rfl, rfl⟩
  case quit_request =>
    unfold skin_winsys_quit_request
    split
    · exact ⟨rfl, rfl⟩
    · split
      · simp only []; split <;> exact ⟨rfl, rfl⟩
      · exact ⟨rfl, rfl⟩
  case destroy =>
    unfold skin_winsys_destroy; simp only []; split <;> exact ⟨rfl, rfl⟩
  case spawn_thread =>
    unfold skin_winsys_spawn_thread
    split
    · split <;> exact ⟨rfl, rfl⟩
    · rw [windowCommand_g]; exact ⟨rfl, rfl⟩
  case start =>
    unfold skin_winsys_start; simp only []
    have h0 : ∀ (t : State), (if (env.platform == Platform.linux) = true
        then s.emit [Event.lib LibCall.XInitThreads] else s) = t → t.g = s.g := by
      intro t ht; subst ht; split <;> rfl
    have h1 := h0 _ rfl
    split
    · simp only [emit_g, skin_winsys_setup_library_paths]
      rw [h1]; exact ⟨rfl, rfl⟩
    · split <;>
        (simp only [emit_g, skin_winsys_setup_library_paths]; rw [h1]; exact ⟨rfl, rfl⟩)
  case run_ui_update =>
    unfold skin_winsys_run_ui_update
    split
    · exact ⟨rfl, rfl⟩
    · split <;> exact ⟨rfl, rfl⟩
  case error_dialog =>
    unfold skin_winsys_error_dialog skin_winsys_run_ui_update; simp only []
    split <;> exact ⟨rfl, rfl⟩
  case set_ui_agent =>
    unfold skin_winsys_set_ui_agent; simp only []; split <;> exact ⟨rfl, rfl⟩
  all_goals first
    | exact ⟨rfl, rfl⟩
    | exact ⟨trivial, trivial⟩
    | (simp only [skin_winsys_set_window_icon, skin_winsys_set_window_pos,
        skin_winsys_set_window_size, skin_winsys_set_window_cursor_resize,
        skin_winsys_paint_overlay_for_resize, skin_winsys_set_window_overlay_for_resize,
        skin_winsys_clear_window_overlay, skin_winsys_set_window_cursor_normal,
        skin_winsys_set_window_title, skin_winsys_update_rotation,
        skin_winsys_show_virtual_scene_controls]
       rw [windowCommand_g]; exact ⟨rfl, rfl⟩)


/-- With the geometry saved, no step changes the flag or the cached values. -/
theorem Step.run_saved (s : State) (step : Step) (h : s.g.geo_saved = true) :
    (step.run s).g.geo_saved = true ∧ (step.run s).g.cache = s.g.cache := by
  cases step with
  | settingsChanged st => exact ⟨h, rfl⟩
  | call env op =>
    by_cases hop : op = .save_window_geo
    · subst hop
      simp only [Step.run, Op.run]
      rw [save_saved env s h]; exact ⟨h, rfl⟩
    · have := Op.run_g env s op hop
      simp only [Step.run]
      exact ⟨this.1.trans h, this.2⟩

/-- With the geometry saved, no sequence of steps changes the flag or the
cached values. -/
theorem runSteps_saved (steps : List Step) :
    ∀ (s : State), s.g.geo_saved = true →
      (runSteps s steps).g.geo_saved = true ∧ (runSteps s steps).g.cache = s.g.cache := by
  induction steps with
  | nil => intro s h; exact ⟨h, rfl⟩
  | cons step steps ih =>
    intro s h
    have h1 := Step.run_saved s step h
    have h2 := ih (step.run s) h1.1
    simp only [runSteps, List.foldl_cons] at h2 ⊢
    exact ⟨h2.1, h2.2.trans h1.2⟩

/-- A save always sets the flag. -/
theorem save_sets_flag (env : Env) (s : State) :
    (skin_winsys_save_window_geo env s).g.geo_saved = true := by
  unfold skin_winsys_save_window_geo
  rfl

/-- A first save with a live window stores what the window reports. -/
theorem save_fresh (env : Env) (s : State) (window : EmulatorQtWindow)
    (hw : env.window = some window) (hs : s.g.geo_saved = false) :
    (skin_winsys_save_window_geo env s).g.cache =
      [window.windowPos.1, window.windowPos.2, window.windowSize.1, window.windowSize.2,
       window.framePos.1, window.framePos.2, window.frameSize.1, window.frameSize.2] := by
  unfold skin_winsys_save_window_geo skin_winsys_get_window_pos skin_winsys_get_window_size
    skin_winsys_get_frame_pos skin_winsys_get_frame_size
  cases hm : env.onMainQtThread <;>
    simp [hw, hs, hm, emit_g, GlobalState.cache]

/-- **C1** (cache precedence). From a state in which a window exists and
nothing has been saved, after `skin_winsys_save_window_geo()` and after any
later sequence of calls, in any environment (the window moved, resized or
gone), the four getters return the position and size the window reported
at the save, whatever the output arguments held, and they leave the state,
log included, as it was: the window is not queried. -/
theorem cache_precedence (env : Env) (s : State) (window : EmulatorQtWindow)
    (hw : env.window = some window) (hs : s.g.geo_saved = false)
    (steps : List Step) (env1 : Env) (a b : Int) :
    skin_winsys_get_window_pos env1 (runSteps (skin_winsys_save_window_geo env s) steps) a b
      = (runSteps (skin_winsys_save_window_geo env s) steps, window.windowPos) ∧
    skin_winsys_get_window_size env1 (runSteps (skin_winsys_save_window_geo env s) steps) a b
      = (runSteps (skin_winsys_save_window_geo env s) steps, window.windowSize) ∧
    skin_winsys_get_frame_pos env1 (runSteps (skin_winsys_save_window_geo env s) steps) a b
      = (runSteps (skin_winsys_save_window_geo env s) steps, window.framePos) ∧
    skin_winsys_get_frame_size env1 (runSteps (skin_winsys_save_window_geo env s) steps) a b
      = (runSteps (skin_winsys_save_window_geo env s) steps, window.frameSize) := by
  have h1 := runSteps_saved steps _ (save_sets_flag env s)
  have h2 := h1.2.trans (save_fresh env s window hw hs)
  have h3 := getters_saved env1 _ h1.1 a b
  simp only [GlobalState.cache, List.cons.injEq, and_true] at h2
  obtain ⟨e1, e2, e3, e4, e5, e6, e7, e8⟩ := h2
  rw [h3.1, h3.2.1, h3.2.2.1, h3.2.2.2, e1, e2, e3, e4, e5, e6, e7, e8]
  exact ⟨rfl, rfl, rfl, rfl⟩

/-- An instance of `cache_precedence`: the window is saved at (100, 50),
then moved, resized and destroyed; the getters still report the save. -/
theorem cache_precedence_witness :
    (exampleEnv false).window = some exampleWindow ∧
    (State.initial []).g.geo_saved = false ∧
    skin_winsys_get_window_pos exampleEnvNoWindow
      (runSteps (skin_winsys_save_window_geo (exampleEnv false) (State.initial []))
        [.call (exampleEnv true) (.set_window_pos 5 5),
         .call (exampleEnv true) (.set_window_size 10 10),
         .call exampleEnvNoWindow .save_window_geo]) 1 2
      = (runSteps (skin_winsys_save_window_geo (exampleEnv false) (State.initial []))
        [.call (exampleEnv true) (.set_window_pos 5 5),
         .call (exampleEnv true) (.set_window_size 10 10),
         .call exampleEnvNoWindow .save_window_geo], ((100, 50) : Int × Int)) :=
  ⟨rfl, rfl, (cache_precedence (exampleEnv false) (State.initial []) exampleWindow rfl rfl
    [.call (exampleEnv true) (.set_window_pos 5 5),
     .call (exampleEnv true) (.set_window_size 10 10),
     .call exampleEnvNoWindow .save_window_geo] exampleEnvNoWindow 1 2).1⟩

/-- **C2** (geometry-cache invariant). After `skin_winsys_save_window_geo()`
the flag `geo_saved` is true; after any sequence of further calls and
outside changes it is still true and the eight cached values are the ones
of the save; and a further save, in any environment, changes nothing at
all: it reads the cache and does not touch the window. -/
theorem geometry_cache_invariant (env : Env) (s : State) (steps : List Step) (env1 : Env) :
    (skin_winsys_save_window_geo env s).g.geo_saved = true ∧
    (runSteps (skin_winsys_save_window_geo env s) steps).g.geo_saved = true ∧
    (runSteps (skin_winsys_save_window_geo env s) steps).g.cache
      = (skin_winsys_save_window_geo env s).g.cache ∧
    skin_winsys_save_window_geo env1 (runSteps (skin_winsys_save_window_geo env s) steps)
      = runSteps (skin_winsys_save_window_geo env s) steps := by
  have h1 := runSteps_saved steps _ (save_sets_flag env s)
  exact ⟨save_sets_flag env s, h1.1, h1.2, save_saved env1 _ h1.1⟩

/-- **C3** (missing-window default for geometry queries). With nothing
saved and no window, each of the four getters writes (0, 0) to its outputs,
whatever they held, and leaves the state, log included, as it was: no
window method is called and no semaphore is constructed or acquired. -/
theorem getters_default_without_window (env : Env) (s : State) (a b : Int)
    (hs : s.g.geo_saved = false) (hw : env.window = none) :
    skin_winsys_get_window_pos env s a b = (s, 0, 0) ∧
    skin_winsys_get_window_size env s a b = (s, 0, 0) ∧
    skin_winsys_get_frame_pos env s a b = (s, 0, 0) ∧
    skin_winsys_get_frame_size env s a b = (s, 0, 0) := by
  simp [skin_winsys_get_window_pos, skin_winsys_get_window_size, skin_winsys_get_frame_pos,
    skin_winsys_get_frame_size, hs, hw]

/-- An instance of `getters_default_without_window`, with outputs that held
41 and 42. -/
theorem getters_default_without_window_witness :
    (State.initial []).g.geo_saved = false ∧ exampleEnvNoWindow.window = none ∧
    skin_winsys_get_window_pos exampleEnvNoWindow (State.initial []) 41 42
      = (State.initial [], 0, 0) :=
  ⟨rfl, rfl,
    (getters_default_without_window exampleEnvNoWindow (State.initial []) 41 42 rfl rfl).1⟩


/-! ## Calls without a window -/

/-- **C4**, as the code has it (missing-window default for boolean
queries). With no window, `skin_winsys_window_has_frame` returns false,
while `skin_winsys_is_window_fully_visible` and
`skin_winsys_is_window_off_screen` return true; the latter two leave the
state as it was. -/
theorem boolean_queries_without_window (env : Env) (s : State) (hw : env.window = none) :
    (skin_winsys_window_has_frame env s).2 = false ∧
    skin_winsys_is_window_fully_visible env s = (s, true) ∧
    skin_winsys_is_window_off_screen env s = (s, true) := by
  simp [skin_winsys_window_has_frame, skin_winsys_is_window_fully_visible,
    skin_winsys_is_window_off_screen, hw]

/-- An instance of `boolean_queries_without_window`. -/
theorem boolean_queries_without_window_witness :
    exampleEnvNoWindow.window = none ∧
    (skin_winsys_window_has_frame exampleEnvNoWindow (State.initial [])).2 = false ∧
    skin_winsys_is_window_fully_visible exampleEnvNoWindow (State.initial [])
      = (State.initial [], true) ∧
    skin_winsys_is_window_off_screen exampleEnvNoWindow (State.initial [])
      = (State.initial [], true) :=
  ⟨rfl, boolean_queries_without_window exampleEnvNoWindow (State.initial []) rfl⟩

/-- **C4**, as stated, fails: with no window the visibility query and the
off-screen query both answer true, not false. -/
theorem boolean_queries_false_counterexample :
    exampleEnvNoWindow.window = none ∧
    (skin_winsys_is_window_fully_visible exampleEnvNoWindow (State.initial [])).2 ≠ false ∧
    (skin_winsys_is_window_off_screen exampleEnvNoWindow (State.initial [])).2 ≠ false := by
  decide

/-- **C5** (missing-window no-op for commands). With no window, each of
the thirteen commands returns the state it was given: `GlobalState` with
its geometry cache, the exit flag, the settings and the log are unchanged,
so no window method is called and the callback of
`skin_winsys_run_ui_update` is not handed to anyone, whatever `wait` is. -/
theorem commands_noop_without_window (env : Env) (s : State) (hw : env.window = none)
    (x y w h corner mouse_x mouse_y rotation : Int) (title : String) (data : List Nat)
    (size : Nat) (rect : SkinRect) (shown wait : Bool) (f : SkinGenericFunction)
    (d : VoidPtr) :
    skin_winsys_set_window_pos env s x y = s ∧
    skin_winsys_set_window_size env s w h = s ∧
    skin_winsys_set_window_title env s title = s ∧
    skin_winsys_set_window_icon env s data size = s ∧
    skin_winsys_set_device_geometry env s rect = s ∧
    skin_winsys_set_window_cursor_resize env s corner = s ∧
    skin_winsys_set_window_cursor_normal env s = s ∧
    skin_winsys_paint_overlay_for_resize env s mouse_x mouse_y = s ∧
    skin_winsys_set_window_overlay_for_resize env s corner = s ∧
    skin_winsys_clear_window_overlay env s = s ∧
    skin_winsys_update_rotation env s rotation = s ∧
    skin_winsys_show_virtual_scene_controls env s shown = s ∧
    skin_winsys_run_ui_update env s f d wait = s := by
  simp [skin_winsys_set_window_pos, skin_winsys_set_window_size, skin_winsys_set_window_title,
    skin_winsys_set_window_icon, skin_winsys_set_device_geometry,
    skin_winsys_set_window_cursor_resize, skin_winsys_set_window_cursor_normal,
    skin_winsys_paint_overlay_for_resize, skin_winsys_set_window_overlay_for_resize,
    skin_winsys_clear_window_overlay, skin_winsys_update_rotation,
    skin_winsys_show_virtual_scene_controls, skin_winsys_run_ui_update, windowCommand, hw]

/-- An instance of `commands_noop_without_window`, after a save. -/
theorem commands_noop_without_window_witness :
    exampleEnvNoWindow.window = none ∧
    skin_winsys_run_ui_update exampleEnvNoWindow
      (skin_winsys_save_window_geo (exampleEnv true) (State.initial [])) (.fn 1) .null true
      = skin_winsys_save_window_geo (exampleEnv true) (State.initial []) :=
  ⟨rfl, (commands_noop_without_window exampleEnvNoWindow
    (skin_winsys_save_window_geo (exampleEnv true) (State.initial [])) rfl
    0 0 0 0 0 0 0 0 "" [] 0 ⟨0, 0, 0, 0⟩ false true (.fn 1) .null).2.2.2.2.2.2.2.2.2.2.2.2⟩


/-! ## Calls on the UI thread -/

theorem ExtendsQuietly.intro {s s1 : State} (es : List Event) (h : s1.log = s.log ++ es)
    (q : ∀ e ∈ es, e.usesSemaphore = false) : ExtendsQuietly s s1 := by
  have : eventsOf s s1 = es := by simp [eventsOf, h]
  exact ⟨by rw [this]; exact h, by rw [this]; exact q⟩

theorem ExtendsQuietly.refl (s : State) : ExtendsQuietly s s :=
  ExtendsQuietly.intro [] (by simp) (by simp)

theorem ExtendsQuietly.trans {s s1 s2 : State} (h1 : ExtendsQuietly s s1)
    (h2 : ExtendsQuietly s1 s2) : ExtendsQuietly s s2 := by
  obtain ⟨ha, qa⟩ := h1
  obtain ⟨hb, qb⟩ := h2
  refine ExtendsQuietly.intro (eventsOf s s1 ++ eventsOf s1 s2)
    (by rw [hb, ha, List.append_assoc]) ?_
  intro e he
  rcases List.mem_append.mp he with h | h
  · exact qa e h
  · exact qb e h

theorem ExtendsQuietly.emit (s : State) (es : List Event)
    (h : ∀ e ∈ es, e.usesSemaphore = false) : ExtendsQuietly s (s.emit es) :=
  ExtendsQuietly.intro es rfl h

theorem waitLoop_quiet (env : Env) (ks : List Wakeup) :
    ∀ (s s1 : State), waitLoop env ks s = some s1 → ExtendsQuietly s s1 := by
  induction ks with
  | nil => intro s s1 h; simp [waitLoop] at h
  | cons k ks ih =>
    intro s s1 h
    unfold waitLoop at h
    split at h
    · cases h; exact ExtendsQuietly.emit _ _ (by simp [Event.usesSemaphore])
    · simp only [] at h
      have h0 : ExtendsQuietly s
          { s.emit [Event.lib LibCall.waitForWakeup] with
            sMainLoopShouldExit := s.sMainLoopShouldExit || k.quitRequested } :=
        ExtendsQuietly.intro [Event.lib LibCall.waitForWakeup] rfl
          (by simp [Event.usesSemaphore])
      split at h
      · cases h; exact h0
      · exact h0.trans (ih _ _ h)

theorem enter_main_loop_quiet (env : Env) (s : State) (no_window : Bool) (ks : List Wakeup) :
    ExtendsQuietly s ((skin_winsys_enter_main_loop env s no_window ks).getD s) := by
  unfold skin_winsys_enter_main_loop
  cases no_window with
  | false =>
    simp only [Bool.false_eq_true, if_false, Option.getD]
    split
    · exact (ExtendsQuietly.emit _ _ (by simp [Event.usesSemaphore])).trans
        (ExtendsQuietly.emit _ _ (by simp [Event.usesSemaphore]))
    · exact ExtendsQuietly.emit _ _ (by simp [Event.usesSemaphore])
  | true =>
    simp only [if_true]
    have h2 : ExtendsQuietly s (if (env.platform == Platform.windows) = true
        then s.emit [Event.lib LibCall.CreateEvent] else s) := by
      split
      · exact ExtendsQuietly.emit _ _ (by simp [Event.usesSemaphore])
      · exact ExtendsQuietly.refl s
    split
    · exact ExtendsQuietly.refl s
    · next s1 h =>
      have h1 := h2.trans (waitLoop_quiet env ks _ _ h)
      split
      · exact h1.trans (ExtendsQuietly.emit _ _ (by simp [Event.usesSemaphore]))
      · exact h1

/-- On the UI thread with a window, a getter hands its query to the
window with `nullptr`, or reads the cache. -/
theorem getters_quiet (env : Env) (s : State) (window : EmulatorQtWindow)
    (hw : env.window = some window) (hm : env.onMainQtThread = true) (a b : Int) :
    ExtendsQuietly s (skin_winsys_get_window_pos env s a b).1 ∧
    ExtendsQuietly s (skin_winsys_get_window_size env s a b).1 ∧
    ExtendsQuietly s (skin_winsys_get_frame_pos env s a b).1 ∧
    ExtendsQuietly s (skin_winsys_get_frame_size env s a b).1 := by
  unfold skin_winsys_get_window_pos skin_winsys_get_window_size skin_winsys_get_frame_pos
    skin_winsys_get_frame_size
  simp only [hw, hm, if_true]
  refine ⟨?_, ?_, ?_, ?_⟩ <;> split <;>
    first
      | exact ExtendsQuietly.refl s
      | exact ExtendsQuietly.emit _ _ (by simp [Event.usesSemaphore])

theorem save_quiet (env : Env) (s : State) (window : EmulatorQtWindow)
    (hw : env.window = some window) (hm : env.onMainQtThread = true) :
    ExtendsQuietly s (skin_winsys_save_window_geo env s) := by
  cases hs : s.g.geo_saved with
  | true => rw [save_saved env s hs]; exact ExtendsQuietly.refl s
  | false =>
    refine ExtendsQuietly.intro
      [.windowCall .getWindowPos false, .windowCall .getWindowSize false,
       .windowCall .getFramePos false, .windowCall .getFrameSize false] ?_
      (by simp [Event.usesSemaphore])
    unfold skin_winsys_save_window_geo skin_winsys_get_window_pos skin_winsys_get_window_size
      skin_winsys_get_frame_pos skin_winsys_get_frame_size
    simp [hw, hs, hm, emit_g, State.emit]

theorem windowCommand_quiet (env : Env) (s : State) (m : WindowMethod) :
    ExtendsQuietly s (windowCommand env s m) := by
  unfold windowCommand
  split
  · exact ExtendsQuietly.refl s
  · exact ExtendsQuietly.emit _ _ (by simp [Event.usesSemaphore])

/-- On the UI thread with a window, every call of the surface except four
adds to the log only events that construct, pass and acquire no
`QSemaphore`; each of the four constructs a semaphore, hands its one piece
of work to the window with that semaphore, and acquires it. -/
theorem ui_thread_semaphores (env : Env) (s : State) (op : Op) (window : EmulatorQtWindow)
    (hw : env.window = some window) (hm : env.onMainQtThread = true) :
    (op.waitsOnEveryThread = false → ExtendsQuietly s (op.run env s)) ∧
    (op.waitsOnEveryThread = true →
      ∃ e, op.dispatches s = [e] ∧ e.postsWithSemaphore = true ∧
        (op.run env s).log = s.log ++ [.semaphoreNew, e, .semaphoreAcquire]) := by
  have hg := getters_quiet env s window hw hm
  have q1 : ∀ (e : Event), e.usesSemaphore = false → ExtendsQuietly s (s.emit [e]) :=
    fun e he => ExtendsQuietly.emit s [e] (by simpa using he)
  cases op <;> simp only [Op.run, Op.waitsOnEveryThread, Bool.true_eq_false, Bool.false_eq_true,
    false_implies, true_implies, implies_true, and_true, true_and]
  case get_shared_ptr => exact ExtendsQuietly.refl s
  case enter_main_loop => exact enter_main_loop_quiet env s _ _
  case get_window_pos => exact (hg _ _).1
  case get_window_size => exact (hg _ _).2.1
  case get_frame_pos => exact (hg _ _).2.2.1
  case get_frame_size => exact (hg _ _).2.2.2
  case save_window_geo => exact save_quiet env s window hw hm
  case get_monitor_rect =>
    exact ⟨.windowCall .getScreenDimensions true, rfl, rfl, by
      simp [skin_winsys_get_monitor_rect, hw, State.emit]⟩
  case window_has_frame =>
    exact ⟨.windowCall .windowHasFrame true, rfl, rfl, by
      simp [skin_winsys_window_has_frame, hw, State.emit]⟩
  case error_dialog message title =>
    exact ⟨.runOnUiThread (.generic .showDialog (.params message title)) true, rfl, rfl, by
      simp [skin_winsys_error_dialog, skin_winsys_run_ui_update, hw, State.emit]⟩
  case run_ui_update f d wait =>
    cases wait with
    | true =>
      simp only [Bool.true_eq_false, false_implies, true_implies, true_and]
      exact ⟨.runOnUiThread (.generic f d) true, rfl, rfl, by
        simp [skin_winsys_run_ui_update, hw, State.emit]⟩
    | false =>
      simp only [Bool.false_eq_true, false_implies, true_implies, and_true]
      simp only [skin_winsys_run_ui_update, hw, Bool.false_eq_true, if_false]
      exact q1 _ rfl
  case get_device_pixel_ratio =>
    simp only [skin_winsys_get_device_pixel_ratio, hw, hm, if_true]; exact q1 _ rfl
  case get_window_handle =>
    simp only [skin_winsys_get_window_handle, hw]; exact q1 _ rfl
  case set_device_geometry =>
    simp only [skin_winsys_set_device_geometry, hw]; exact q1 _ rfl
  case is_window_fully_visible =>
    simp only [skin_winsys_is_window_fully_visible, hw, hm, if_true]; exact q1 _ rfl
  case is_window_off_screen =>
    simp only [skin_winsys_is_window_off_screen, hw, hm, if_true]; exact q1 _ rfl
  case quit_request =>
    simp only [skin_winsys_quit_request, hw]; exact q1 _ rfl
  case destroy =>
    unfold skin_winsys_destroy; simp only []
    split
    · exact ExtendsQuietly.intro [.lib .QtLogger_stop, .lib .atexitDeleteApp]
        (by simp [State.emit]) (by simp [Event.usesSemaphore])
    · exact ExtendsQuietly.intro [.lib .QtLogger_stop, .lib .deleteApp]
        (by simp [State.emit]) (by simp [Event.usesSemaphore])
  case spawn_thread =>
    unfold skin_winsys_spawn_thread
    split
    · split
      · exact q1 _ rfl
      · exact ExtendsQuietly.refl s
    · exact windowCommand_quiet env s _
  case setup_library_paths => exact q1 _ rfl
  case init_args => exact ExtendsQuietly.intro [] (by simp [skin_winsys_init_args]) (by simp)
  case snapshot_control_start =>
    exact ExtendsQuietly.intro [.lib .androidQtDefaultInit, .lib .newSnapshotPageShow,
      .lib .appExec] (by simp [skin_winsys_snapshot_control_start, State.emit])
      (by simp [Event.usesSemaphore])
  case start no_window =>
    unfold skin_winsys_start skin_winsys_setup_library_paths
    cases hp : env.platform <;> cases no_window <;>
      exact ExtendsQuietly.intro _ (by simp [State.emit]; rfl) (by simp [Event.usesSemaphore])
  case set_ui_agent agent =>
    simp only [skin_winsys_set_ui_agent, hw]
    exact ExtendsQuietly.intro [.lib (.ToolWindow_earlyInitialization agent),
      .runOnUiThread (.earlyInit agent) false] (by simp [State.emit])
      (by simp [Event.usesSemaphore])
  case report_entering_main_loop => exact q1 _ rfl
  all_goals first
    | exact ExtendsQuietly.refl s
    | exact windowCommand_quiet env s _

theorem waitLoop_no_dispatch (env : Env) (ks : List Wakeup) :
    ∀ (s s1 : State), waitLoop env ks s = some s1 →
      ∃ es, s1.log = s.log ++ es ∧ es.filter Event.isDispatch = [] := by
  induction ks with
  | nil => intro s s1 h; simp [waitLoop] at h
  | cons k ks ih =>
    intro s s1 h
    unfold waitLoop at h
    split at h
    · cases h; exact ⟨_, rfl, by simp [Event.isDispatch]⟩
    · simp only [] at h
      split at h
      · cases h; exact ⟨[.lib .waitForWakeup], rfl, by simp [Event.isDispatch]⟩
      · obtain ⟨es, hes, hne⟩ := ih _ _ h
        refine ⟨.lib .waitForWakeup :: es, ?_, by simpa [Event.isDispatch] using hne⟩
        rw [hes]; simp [State.emit]

theorem enter_main_loop_no_dispatch (env : Env) (s : State) (no_window : Bool)
    (ks : List Wakeup) :
    (eventsOf s ((skin_winsys_enter_main_loop env s no_window ks).getD s)).filter
      Event.isDispatch = [] := by
  unfold skin_winsys_enter_main_loop
  cases no_window with
  | false =>
    simp only [Bool.false_eq_true, if_false, Option.getD]
    split <;> simp [eventsOf, State.emit, Event.isDispatch]
  | true =>
    simp only [if_true]
    split
    · simp [eventsOf]
    · next s1 h =>
      obtain ⟨es, hes, hne⟩ := waitLoop_no_dispatch env ks _ _ h
      by_cases hp : (env.platform == Platform.windows) = true
      · simp only [hp, if_true] at hes
        split <;> simp [eventsOf, State.emit, hes, Event.isDispatch, hne]
      · simp only [hp, if_false] at hes
        split <;> simp [eventsOf, State.emit, hes, Event.isDispatch, hne]

theorem windowCommand_events (env : Env) (s : State) (m : WindowMethod)
    (window : EmulatorQtWindow) (hw : env.window = some window) :
    (windowCommand env s m).log = s.log ++ [.windowCall m false] := by
  simp [windowCommand, hw, State.emit]

/-- On the UI thread with a window, the work a call hands to the window is
the work of that call, in the order of its source. -/
theorem ui_thread_dispatches (env : Env) (s : State) (op : Op) (window : EmulatorQtWindow)
    (hw : env.window = some window) (hm : env.onMainQtThread = true) :
    (eventsOf s (op.run env s)).filter Event.isDispatch = op.dispatches s := by
  have hc := fun m => windowCommand_events env s m window hw
  cases op <;> simp only [Op.run, Op.dispatches]
  case enter_main_loop => exact enter_main_loop_no_dispatch env s _ _
  case get_window_pos =>
    cases hs : s.g.geo_saved <;>
      simp [skin_winsys_get_window_pos, hw, hm, hs, eventsOf, State.emit, Event.isDispatch]
  case get_window_size =>
    cases hs : s.g.geo_saved <;>
      simp [skin_winsys_get_window_size, hw, hm, hs, eventsOf, State.emit, Event.isDispatch]
  case get_frame_pos =>
    cases hs : s.g.geo_saved <;>
      simp [skin_winsys_get_frame_pos, hw, hm, hs, eventsOf, State.emit, Event.isDispatch]
  case get_frame_size =>
    cases hs : s.g.geo_saved <;>
      simp [skin_winsys_get_frame_size, hw, hm, hs, eventsOf, State.emit, Event.isDispatch]
  case save_window_geo =>
    cases hs : s.g.geo_saved with
    | true => rw [save_saved env s hs]; simp [eventsOf]
    | false =>
      simp [skin_winsys_save_window_geo, skin_winsys_get_window_pos,
        skin_winsys_get_window_size, skin_winsys_get_frame_pos, skin_winsys_get_frame_size,
        hw, hm, hs, emit_g, eventsOf, State.emit, Event.isDispatch]
  case spawn_thread no_window f argc argv =>
    cases no_window <;> cases hn : env.noQtNoWindow <;>
      simp [skin_winsys_spawn_thread, hn, hc, eventsOf, State.emit, Event.isDispatch]
  case start no_window =>
    cases hp : env.platform <;> cases no_window <;>
      simp [skin_winsys_start, skin_winsys_setup_library_paths, hp, eventsOf, State.emit,
        Event.isDispatch]
  case destroy =>
    cases hp : env.platform <;>
      simp [skin_winsys_destroy, hp, eventsOf, State.emit, Event.isDispatch]
  case run_ui_update f d wait =>
    cases wait <;>
      simp [skin_winsys_run_ui_update, hw, eventsOf, State.emit, Event.isDispatch]
  all_goals
    simp [skin_winsys_get_monitor_rect, skin_winsys_get_device_pixel_ratio,
      skin_winsys_get_window_handle, skin_winsys_window_has_frame,
      skin_winsys_set_device_geometry, skin_winsys_is_window_fully_visible,
      skin_winsys_is_window_off_screen, skin_winsys_set_preferred_gles_backend,
      skin_winsys_quit_request, skin_winsys_set_window_icon, skin_winsys_set_window_pos,
      skin_winsys_set_window_size, skin_winsys_set_window_cursor_resize,
      skin_winsys_paint_overlay_for_resize, skin_winsys_set_window_overlay_for_resize,
      skin_winsys_clear_window_overlay, skin_winsys_set_window_cursor_normal,
      skin_winsys_set_window_title, skin_winsys_update_rotation,
      skin_winsys_show_virtual_scene_controls, skin_winsys_setup_library_paths,
      skin_winsys_init_args, skin_winsys_snapshot_control_start, skin_winsys_run_ui_update,
      skin_winsys_error_dialog, skin_winsys_set_ui_agent,
      skin_winsys_report_entering_main_loop, hw, hm, hc, eventsOf, State.emit,
      Event.isDispatch]

/-- A call that uses no semaphore, made by the UI thread, returns with
every piece of work it handed to the window executed. -/
theorem Threads.runOnUiThread_quiet (es : List Event) :
    ∀ (t : Threads), (∀ e ∈ es, e.usesSemaphore = false) →
      Threads.runOnUiThread es t
        = some { t with pc := [], executed := t.executed ++ es.filter Event.isDispatch } := by
  induction es with
  | nil => intro t _; simp [Threads.runOnUiThread]
  | cons e es ih =>
    intro t h
    have he := h e (List.mem_cons_self _ _)
    have hes : ∀ x ∈ es, x.usesSemaphore = false :=
      fun x hx => h x (List.mem_cons_of_mem _ hx)
    cases e <;> simp [Event.usesSemaphore] at he <;>
      simp [Threads.runOnUiThread, Threads.onUiThread, ih _ hes, he, Event.isDispatch]

/-- A call that constructs a semaphore, hands one piece of work to the
window with it and acquires it, made by the UI thread, returns with that
work executed. -/
theorem Threads.runOnUiThread_waiting (e : Event) (he : e.postsWithSemaphore = true) :
    Threads.runOnUiThread [.semaphoreNew, e, .semaphoreAcquire]
        (Threads.start [.semaphoreNew, e, .semaphoreAcquire])
      = some ⟨[], 0, [], [e]⟩ := by
  cases e <;> simp [Event.postsWithSemaphore] at he <;> subst he <;> rfl

/-- **C6**, as the code has it. For every call of the surface made on the
UI thread with a window: the work it hands to the window is exactly the
window method of that call, called directly; the call constructs, passes
and acquires no `QSemaphore`, so the method is called with `nullptr`,
unless it is `skin_winsys_run_ui_update` with `wait` set,
`skin_winsys_error_dialog`, `skin_winsys_window_has_frame` or
`skin_winsys_get_monitor_rect`, which construct a semaphore, hand their
work to the window with it and acquire it, on the UI thread as on any
other; and in both cases the work is executed synchronously: with the
window executing at once what the UI thread hands it, the call returns,
and when it does every piece of its work has run and none is queued. -/
theorem ui_thread_calls (env : Env) (s : State) (op : Op) (window : EmulatorQtWindow)
    (hw : env.window = some window) (hm : env.onMainQtThread = true) :
    (eventsOf s (op.run env s)).filter Event.isDispatch = op.dispatches s ∧
    (op.waitsOnEveryThread = false → ExtendsQuietly s (op.run env s)) ∧
    (op.waitsOnEveryThread = true →
      ∃ e, op.dispatches s = [e] ∧ e.postsWithSemaphore = true ∧
        (op.run env s).log = s.log ++ [.semaphoreNew, e, .semaphoreAcquire]) ∧
    ∃ t, Threads.runOnUiThread (eventsOf s (op.run env s))
        (Threads.start (eventsOf s (op.run env s))) = some t ∧
      t.pc = [] ∧ t.queue = [] ∧ t.executed = op.dispatches s := by
  have hd := ui_thread_dispatches env s op window hw hm
  have hs := ui_thread_semaphores env s op window hw hm
  refine ⟨hd, hs.1, hs.2, ?_⟩
  cases hwait : op.waitsOnEveryThread with
  | false =>
    have hq := hs.1 hwait
    rw [Threads.runOnUiThread_quiet _ _ hq.2]
    exact ⟨_, rfl, rfl, rfl, by simpa [Threads.start] using hd⟩
  | true =>
    obtain ⟨e, h1, h2, h3⟩ := hs.2 hwait
    have hev : eventsOf s (op.run env s) = [.semaphoreNew, e, .semaphoreAcquire] := by
      simp [eventsOf, h3]
    rw [hev, Threads.runOnUiThread_waiting e h2]
    exact ⟨_, rfl, rfl, rfl, h1.symm⟩

/-- An instance of `ui_thread_calls`: moving the window from the UI
thread. The one event of the call is the window method, with `nullptr`. -/
theorem ui_thread_calls_witness :
    (exampleEnv true).window = some exampleWindow ∧
    (exampleEnv true).onMainQtThread = true ∧
    (eventsOf (State.initial [])
        ((Op.set_window_pos 5 7).run (exampleEnv true) (State.initial []))).filter
        Event.isDispatch
      = [.windowCall (.setWindowPos 5 7) false] ∧
    ExtendsQuietly (State.initial [])
      ((Op.set_window_pos 5 7).run (exampleEnv true) (State.initial [])) :=
  ⟨rfl, rfl,
   (ui_thread_calls (exampleEnv true) (State.initial []) (.set_window_pos 5 7)
     exampleWindow rfl rfl).1,
   (ui_thread_calls (exampleEnv true) (State.initial []) (.set_window_pos 5 7)
     exampleWindow rfl rfl).2.1 rfl⟩

/-- **C6**, as stated, fails: on the UI thread with a window,
`skin_winsys_run_ui_update` with `wait` set, `skin_winsys_window_has_frame`
and `skin_winsys_get_monitor_rect` each construct a semaphore and acquire
it. -/
theorem ui_thread_semaphore_counterexample :
    (exampleEnv true).window = some exampleWindow ∧
    (exampleEnv true).onMainQtThread = true ∧
    eventsOf (State.initial [])
        (skin_winsys_run_ui_update (exampleEnv true) (State.initial []) (.fn 1) .null true)
      = [.semaphoreNew, .runOnUiThread (.generic (.fn 1) .null) true, .semaphoreAcquire] ∧
    eventsOf (State.initial [])
        (skin_winsys_window_has_frame (exampleEnv true) (State.initial [])).1
      = [.semaphoreNew, .windowCall .windowHasFrame true, .semaphoreAcquire] ∧
    eventsOf (State.initial [])
        (skin_winsys_get_monitor_rect (exampleEnv true) (State.initial []) ⟨0, 0, 0, 0⟩).1
      = [.semaphoreNew, .windowCall .getScreenDimensions true, .semaphoreAcquire] := by
  decide


/-! ## Calls off the UI thread -/

theorem Threads.during_step (e : Event) (he : e.postsWithSemaphore = true) (t t1 : Threads)
    (th : Thread) (ht : t.during e) (h : t.step th = some t1) : t1.during e := by
  unfold Threads.during at ht ⊢
  rcases ht with ht | ht | ht | ht | ht <;> subst ht <;> cases th
  all_goals
    cases e <;> simp [Event.postsWithSemaphore] at he <;>
      simp [Threads.step, he, Event.postsWithSemaphore] at h <;> subst h <;> simp [he]

theorem Threads.during_run (e : Event) (he : e.postsWithSemaphore = true)
    (schedule : List Thread) :
    ∀ (t t1 : Threads), t.during e → t.run schedule = some t1 → t1.during e := by
  induction schedule with
  | nil => intro t t1 ht h; simp [Threads.run] at h; subst h; exact ht
  | cons th rest ih =>
    intro t t1 ht h
    unfold Threads.run at h
    split at h
    · cases h
    · next t2 h2 => exact ih t2 t1 (Threads.during_step e he t t2 th ht h2) h

/-- A call of the shape `semaphoreNew`, post with the semaphore,
`semaphoreAcquire` has returned only in states in which its work has run
once, and it can return. -/
theorem Threads.returns_after_work (e : Event) (he : e.postsWithSemaphore = true) :
    (∀ (schedule : List Thread) (t : Threads),
      (Threads.start [.semaphoreNew, e, .semaphoreAcquire]).run schedule = some t →
      t.pc = [] → t.executed = [e] ∧ t.queue = []) ∧
    ∃ t, (Threads.start [.semaphoreNew, e, .semaphoreAcquire]).run
      [.caller, .caller, .ui, .caller] = some t ∧ t.pc = [] := by
  constructor
  · intro schedule t h hret
    have := Threads.during_run e he schedule _ t (Or.inl rfl) h
    unfold Threads.during at this
    rcases this with ht | ht | ht | ht | ht <;> subst ht <;> simp at hret ⊢
  · cases e <;> simp [Event.postsWithSemaphore] at he <;> subst he <;>
      exact ⟨_, rfl, rfl⟩


theorem eventsOf_of_log {s s1 : State} {es : List Event} (h : s1.log = s.log ++ es) :
    eventsOf s s1 = es := by
  simp [eventsOf, h]

/-- Off the UI thread with a window, a blocking call constructs a
semaphore, hands one piece of work to the window with it, and acquires. -/
theorem blocking_events (env : Env) (s : State) (op : Op) (window : EmulatorQtWindow)
    (hw : env.window = some window) (hm : env.onMainQtThread = false)
    (hb : op.blocksOffUiThread s = true) :
    ∃ e, e.postsWithSemaphore = true ∧
      (op.run env s).log = s.log ++ [.semaphoreNew, e, .semaphoreAcquire] := by
  cases op <;> simp [Op.blocksOffUiThread] at hb
  case run_ui_update f d wait =>
    subst hb
    exact ⟨.runOnUiThread (.generic f d) true, rfl, by
      simp [Op.run, skin_winsys_run_ui_update, hw, State.emit]⟩
  case error_dialog message title =>
    exact ⟨.runOnUiThread (.generic .showDialog (.params message title)) true, rfl, by
      simp [Op.run, skin_winsys_error_dialog, skin_winsys_run_ui_update, hw, State.emit]⟩
  case window_has_frame =>
    exact ⟨.windowCall .windowHasFrame true, rfl, by
      simp [Op.run, skin_winsys_window_has_frame, hw, State.emit]⟩
  case get_monitor_rect =>
    exact ⟨.windowCall .getScreenDimensions true, rfl, by
      simp [Op.run, skin_winsys_get_monitor_rect, hw, State.emit]⟩
  case get_device_pixel_ratio =>
    exact ⟨.windowCall .getDevicePixelRatio true, rfl, by
      simp [Op.run, skin_winsys_get_device_pixel_ratio, hw, hm, State.emit]⟩
  case is_window_fully_visible =>
    exact ⟨.windowCall .isWindowFullyVisible true, rfl, by
      simp [Op.run, skin_winsys_is_window_fully_visible, hw, hm, State.emit]⟩
  case is_window_off_screen =>
    exact ⟨.windowCall .isWindowOffScreen true, rfl, by
      simp [Op.run, skin_winsys_is_window_off_screen, hw, hm, State.emit]⟩
  case get_window_pos =>
    exact ⟨.windowCall .getWindowPos true, rfl, by
      simp [Op.run, skin_winsys_get_window_pos, hw, hm, hb, State.emit]⟩
  case get_window_size =>
    exact ⟨.windowCall .getWindowSize true, rfl, by
      simp [Op.run, skin_winsys_get_window_size, hw, hm, hb, State.emit]⟩
  case get_frame_pos =>
    exact ⟨.windowCall .getFramePos true, rfl, by
      simp [Op.run, skin_winsys_get_frame_pos, hw, hm, hb, State.emit]⟩
  case get_frame_size =>
    exact ⟨.windowCall .getFrameSize true, rfl, by
      simp [Op.run, skin_winsys_get_frame_size, hw, hm, hb, State.emit]⟩

/-- **C7** (blocking calls off the UI thread). Off the UI thread with a
window, a blocking call (`skin_winsys_run_ui_update` with `wait` set, a
query, a getter with nothing cached) does exactly this: it constructs a
fresh semaphore, hands one piece of work `e` to the window together with
that semaphore, and acquires it. Under every interleaving of the caller
with the UI thread, whenever the call has returned the UI thread has run
`e` once and nothing is left queued; and the call does return once the UI
thread has run the work. -/
theorem blocking_call_waits (env : Env) (s : State) (op : Op) (window : EmulatorQtWindow)
    (hw : env.window = some window) (hm : env.onMainQtThread = false)
    (hb : op.blocksOffUiThread s = true) :
    ∃ e, e.postsWithSemaphore = true ∧
      (op.run env s).log = s.log ++ [.semaphoreNew, e, .semaphoreAcquire] ∧
      (∀ (schedule : List Thread) (t : Threads),
        (Threads.start (eventsOf s (op.run env s))).run schedule = some t →
        t.pc = [] → t.executed = [e] ∧ t.queue = []) ∧
      ∃ t, (Threads.start (eventsOf s (op.run env s))).run
        [.caller, .caller, .ui, .caller] = some t ∧ t.pc = [] := by
  obtain ⟨e, he, hlog⟩ := blocking_events env s op window hw hm hb
  have hev := eventsOf_of_log hlog
  rw [hev]
  exact ⟨e, he, hlog, Threads.returns_after_work e he⟩

/-- An instance of `blocking_call_waits`: `skin_winsys_run_ui_update` with
`wait` set, called off the UI thread. -/
theorem blocking_call_waits_witness :
    (exampleEnv false).window = some exampleWindow ∧
    (exampleEnv false).onMainQtThread = false ∧
    (Op.run_ui_update (.fn 1) .null true).blocksOffUiThread (State.initial []) = true ∧
    ∃ e, e.postsWithSemaphore = true ∧
      ((Op.run_ui_update (.fn 1) .null true).run (exampleEnv false) (State.initial [])).log
        = (State.initial []).log ++ [.semaphoreNew, e, .semaphoreAcquire] ∧
      (∀ (schedule : List Thread) (t : Threads),
        (Threads.start (eventsOf (State.initial [])
          ((Op.run_ui_update (.fn 1) .null true).run (exampleEnv false)
            (State.initial [])))).run schedule = some t →
        t.pc = [] → t.executed = [e] ∧ t.queue = []) ∧
      ∃ t, (Threads.start (eventsOf (State.initial [])
          ((Op.run_ui_update (.fn 1) .null true).run (exampleEnv false)
            (State.initial [])))).run [.caller, .caller, .ui, .caller] = some t ∧ t.pc = [] :=
  ⟨rfl, rfl, rfl, blocking_call_waits (exampleEnv false) (State.initial [])
    (.run_ui_update (.fn 1) .null true) exampleWindow rfl rfl rfl⟩


/-! ## Preferences -/

/-- **C8** (GLES backend preference round trip). For every backend value
`b`, the getter after `skin_winsys_set_preferred_gles_backend(b)` returns
`b`; with nothing stored under `GLESBACKEND_PREFERENCE` the getter returns
0; and with nothing stored under `GLESAPILEVEL_PREFERENCE`,
`skin_winsys_get_preferred_gles_apilevel()` returns 0. -/
theorem gles_backend_round_trip (s : State) (b : WinsysPreferredGlesBackend) :
    skin_winsys_get_preferred_gles_backend (skin_winsys_set_preferred_gles_backend s b) = b ∧
    (s.settings.lookup .GLESBACKEND_PREFERENCE = none →
      skin_winsys_get_preferred_gles_backend s = 0) ∧
    (s.settings.lookup .GLESAPILEVEL_PREFERENCE = none →
      skin_winsys_get_preferred_gles_apilevel s = 0) := by
  refine ⟨?_, ?_, ?_⟩
  · simp [skin_winsys_get_preferred_gles_backend, skin_winsys_set_preferred_gles_backend,
      QSettings.value, QSettings.setValue, List.lookup, QVariant.toInt]
  · intro h
    simp [skin_winsys_get_preferred_gles_backend, QSettings.value, h, QVariant.toInt]
  · intro h
    simp [skin_winsys_get_preferred_gles_apilevel, QSettings.value, h, QVariant.toInt]

/-- An instance of `gles_backend_round_trip`: an empty store, and a store
that already holds another backend and a mouse-wheel flag. -/
theorem gles_backend_round_trip_witness :
    skin_winsys_get_preferred_gles_backend (State.initial []) = 0 ∧
    skin_winsys_get_preferred_gles_apilevel (State.initial []) = 0 ∧
    skin_winsys_get_preferred_gles_backend
      (skin_winsys_set_preferred_gles_backend
        (State.initial [(.DISABLE_MOUSE_WHEEL, .bool true), (.GLESBACKEND_PREFERENCE, .int 1)])
        3) = 3 :=
  ⟨(gles_backend_round_trip (State.initial []) 3).2.1 rfl,
   (gles_backend_round_trip (State.initial []) 3).2.2 rfl,
   (gles_backend_round_trip
     (State.initial [(.DISABLE_MOUSE_WHEEL, .bool true), (.GLESBACKEND_PREFERENCE, .int 1)])
     3).1⟩

end WinsysQt

namespace Recording

/-! ## The recorder -/

/-- A call adds a video track only by an `addVideoTrack` that returns
true. -/
theorem Call.run_videoTrack (r : FfmpegRecorder) (c : Call) (h : r.videoTrack = false)
    (hc : videoTrackAdded [(c, (c.run r).2)] = false) : (c.run r).1.videoTrack = false := by
  cases c <;> simp [Call.run, FfmpegRecorder.start, FfmpegRecorder.stop,
    FfmpegRecorder.addAudioTrack, FfmpegRecorder.addVideoTrack, videoTrackAdded] at hc ⊢
  case isValid => exact h
  case start ok => split <;> simpa using h
  case stop => exact h
  case addAudioTrack ok => split <;> simpa using h
  case addVideoTrack ok =>
    split
    · next hv => simp [FfmpegRecorder.addVideoTrack, hv] at hc
    · exact h


theorem runCalls_cons (r : FfmpegRecorder) (c : Call) (cs : List Call) :
    runCalls r (c :: cs) =
      ((runCalls (c.run r).1 cs).1, (c, (c.run r).2) :: (runCalls (c.run r).1 cs).2) := rfl

theorem videoTrackAdded_cons (cb : Call × Bool) (history : List (Call × Bool)) :
    videoTrackAdded (cb :: history) = (videoTrackAdded [cb] || videoTrackAdded history) := by
  simp [videoTrackAdded]

/-- While no `addVideoTrack` has returned true, the recorder has no video
track and every `start` has returned false. -/
theorem runCalls_without_video (calls : List Call) :
    ∀ (r : FfmpegRecorder), r.videoTrack = false →
      videoTrackAdded (runCalls r calls).2 = false →
      (runCalls r calls).1.videoTrack = false ∧
      ∀ libraryOk, (Call.start libraryOk, true) ∉ (runCalls r calls).2 := by
  induction calls with
  | nil => intro r h _; exact ⟨h, by simp [runCalls]⟩
  | cons c cs ih =>
    intro r h hv
    rw [runCalls_cons] at hv ⊢
    rw [videoTrackAdded_cons] at hv
    simp only [Bool.or_eq_false_iff] at hv
    have h1 := Call.run_videoTrack r c h hv.1
    have h2 := ih _ h1 hv.2
    refine ⟨h2.1, ?_⟩
    intro ok hmem
    rcases List.mem_cons.mp hmem with heq | hin
    · have hc : c = Call.start ok := (Prod.mk.inj heq).1.symm
      have hb : (c.run r).2 = true := (Prod.mk.inj heq).2.symm
      subst hc
      simp [Call.run, FfmpegRecorder.start, h] at hb
    · exact h2.2 ok hin

/-- **C9** (no video track, no start). Take a recorder from `create` and
any sequence of calls on it in which no `addVideoTrack` returned true,
audio tracks added or not. Then every `start` of the sequence returned
false, and a `start` made now returns false, whatever the library would
answer. -/
theorem start_rejected_without_video_track (opened : Bool) (calls : List Call)
    (libraryOk : Bool)
    (h : videoTrackAdded (runCalls (FfmpegRecorder.create opened) calls).2 = false) :
    ((runCalls (FfmpegRecorder.create opened) calls).1.start libraryOk).2 = false ∧
    ∀ ok, (Call.start ok, true) ∉ (runCalls (FfmpegRecorder.create opened) calls).2 := by
  have h1 := runCalls_without_video calls (FfmpegRecorder.create opened) rfl h
  refine ⟨?_, h1.2⟩
  simp [FfmpegRecorder.start, h1.1]

/-- An instance of `start_rejected_without_video_track`: an audio track is
added, a video track fails to be added, and `start` is tried twice. -/
theorem start_rejected_without_video_track_witness :
    videoTrackAdded (runCalls (FfmpegRecorder.create true)
      [.addAudioTrack true, .addVideoTrack false, .start true]).2 = false ∧
    ((runCalls (FfmpegRecorder.create true)
      [.addAudioTrack true, .addVideoTrack false, .start true]).1.start true).2 = false :=
  ⟨rfl, (start_rejected_without_video_track true
    [.addAudioTrack true, .addVideoTrack false, .start true] true rfl).1⟩

/-- No call brings a stopped recorder back. -/
theorem Call.run_stopped (r : FfmpegRecorder) (c : Call) (h : r.stopped = true) :
    (c.run r).1.stopped = true := by
  cases c <;> simp [Call.run, FfmpegRecorder.start, FfmpegRecorder.stop,
    FfmpegRecorder.addAudioTrack, FfmpegRecorder.addVideoTrack, FfmpegRecorder.isValid, h]

/-- On a stopped recorder every call that returns a status returns false,
`isValid` included. -/
theorem Call.run_rejected (r : FfmpegRecorder) (c : Call) (h : r.stopped = true) :
    (c.run r).2 = false := by
  cases c <;> simp [Call.run, FfmpegRecorder.start, FfmpegRecorder.stop,
    FfmpegRecorder.addAudioTrack, FfmpegRecorder.addVideoTrack, FfmpegRecorder.isValid, h]

theorem runCalls_stopped (calls : List Call) :
    ∀ (r : FfmpegRecorder), r.stopped = true →
      (runCalls r calls).1.stopped = true ∧
      ∀ cb ∈ (runCalls r calls).2, cb.2 = false := by
  induction calls with
  | nil => intro r h; exact ⟨h, by simp [runCalls]⟩
  | cons c cs ih =>
    intro r h
    rw [runCalls_cons]
    have h2 := ih _ (Call.run_stopped r c h)
    refine ⟨h2.1, ?_⟩
    intro cb hmem
    rcases List.mem_cons.mp hmem with heq | hin
    · subst heq; exact Call.run_rejected r c h
    · exact h2.2 cb hin

/-- **C10** (single use). Once `stop()` has been called on a recorder, in
whatever state it was, then after any further sequence of calls `isValid()`
returns false and `start()` returns false; and every `isValid` and `start`
made inside that sequence returned false as well. -/
theorem start_rejected_after_stop (r : FfmpegRecorder) (flushOk : Bool) (calls : List Call)
    (libraryOk : Bool) :
    (runCalls (r.stop flushOk).1 calls).1.isValid = false ∧
    ((runCalls (r.stop flushOk).1 calls).1.start libraryOk).2 = false ∧
    (Call.isValid, true) ∉ (runCalls (r.stop flushOk).1 calls).2 ∧
    ∀ ok, (Call.start ok, true) ∉ (runCalls (r.stop flushOk).1 calls).2 := by
  have h := runCalls_stopped calls (r.stop flushOk).1 rfl
  refine ⟨?_, ?_, ?_, ?_⟩
  · simp [FfmpegRecorder.isValid, h.1]
  · simp [FfmpegRecorder.start, FfmpegRecorder.isValid, h.1]
  · intro hmem; simpa using h.2 _ hmem
  · intro ok hmem; simpa using h.2 _ hmem

end Recording

namespace WinsysQt

/-! ## Single calls -/

/-- **C11** (device pixel ratio). The call returns -1 exactly when there
is no window, and then hands back `*dpr` and the state as they were. With a
window it returns 0 and `*dpr` holds the ratio the window reported; on the
UI thread the window is called with `nullptr` and no semaphore exists, off
the UI thread the window is called with a fresh semaphore and the last thing
the call does is acquire it. -/
theorem device_pixel_ratio_result (env : Env) (s : State) (dpr : Rat) :
    ((skin_winsys_get_device_pixel_ratio env s dpr).2.1 = -1 ↔ env.window = none) ∧
    (env.window = none → skin_winsys_get_device_pixel_ratio env s dpr = (s, -1, dpr)) ∧
    (∀ window, env.window = some window →
      (skin_winsys_get_device_pixel_ratio env s dpr).2 = (0, window.devicePixelRatio) ∧
      (env.onMainQtThread = true →
        (skin_winsys_get_device_pixel_ratio env s dpr).1
          = s.emit [.windowCall .getDevicePixelRatio false]) ∧
      (env.onMainQtThread = false →
        (skin_winsys_get_device_pixel_ratio env s dpr).1
          = s.emit [.semaphoreNew, .windowCall .getDevicePixelRatio true,
              .semaphoreAcquire])) := by
  unfold skin_winsys_get_device_pixel_ratio
  cases hw : env.window with
  | none => simp
  | some window =>
    cases hm : env.onMainQtThread <;> simp

/-- An instance of `device_pixel_ratio_result`: no window, then a window
reporting 2, on the UI thread and off it; `*dpr` held 1 before. -/
theorem device_pixel_ratio_result_witness :
    skin_winsys_get_device_pixel_ratio exampleEnvNoWindow (State.initial []) 1
      = (State.initial [], -1, 1) ∧
    (skin_winsys_get_device_pixel_ratio (exampleEnv true) (State.initial []) 1).2 = (0, 2) ∧
    (skin_winsys_get_device_pixel_ratio (exampleEnv false) (State.initial []) 1).1
      = (State.initial []).emit [.semaphoreNew, .windowCall .getDevicePixelRatio true,
          .semaphoreAcquire] :=
  ⟨(device_pixel_ratio_result exampleEnvNoWindow (State.initial []) 1).2.1 rfl,
   ((device_pixel_ratio_result (exampleEnv true) (State.initial []) 1).2.2
     exampleWindow rfl).1,
   ((device_pixel_ratio_result (exampleEnv false) (State.initial []) 1).2.2
     exampleWindow rfl).2.2 rfl⟩

/-- **C12** (quit request). With an `EmulatorQtWindow` the call is
`requestClose` on it and nothing else, so `sMainLoopShouldExit` keeps its
value. Without one but with an `EmulatorNoQtNoWindow`, the flag is set and
the wake-up is sent; the flag is true on return whether or not the wake-up
call fails, a failure only adding a line on the standard error. With
neither, nothing changes. -/
theorem quit_request_precedence (env : Env) (s : State) :
    (∀ window, env.window = some window →
      skin_winsys_quit_request env s = s.emit [.windowCall .requestClose false] ∧
      (skin_winsys_quit_request env s).sMainLoopShouldExit = s.sMainLoopShouldExit) ∧
    (env.window = none → env.noQtNoWindow = true →
      (skin_winsys_quit_request env s).sMainLoopShouldExit = true ∧
      (skin_winsys_quit_request env s).g = s.g ∧
      (skin_winsys_quit_request env s).settings = s.settings ∧
      (env.wakeupFails = false →
        (skin_winsys_quit_request env s).log = s.log ++ [.lib .wakeup]) ∧
      (env.wakeupFails = true →
        ∃ msg, (skin_winsys_quit_request env s).log
          = s.log ++ [.lib .wakeup, .lib (.stderr msg)])) ∧
    (env.window = none → env.noQtNoWindow = false → skin_winsys_quit_request env s = s) := by
  unfold skin_winsys_quit_request
  refine ⟨?_, ?_, ?_⟩
  · intro window hw
    simp [hw, State.emit]
  · intro hw hn
    cases hf : env.wakeupFails <;> simp [hw, hn, State.emit]
  · intro hw hn
    simp [hw, hn]

/-- Windowless mode: no window, an `EmulatorNoQtNoWindow`, and a wake-up
call that fails or not. -/
theorem quit_request_precedence_witness :
    (skin_winsys_quit_request
      { exampleEnvNoWindow with noQtNoWindow := true, wakeupFails := true }
      (State.initial [])).sMainLoopShouldExit = true ∧
    skin_winsys_quit_request exampleEnvNoWindow (State.initial []) = State.initial [] ∧
    (skin_winsys_quit_request (exampleEnv true) (State.initial [])).sMainLoopShouldExit
      = false :=
  ⟨((quit_request_precedence
      { exampleEnvNoWindow with noQtNoWindow := true, wakeupFails := true }
      (State.initial [])).2.1 rfl rfl).1,
   (quit_request_precedence exampleEnvNoWindow (State.initial [])).2.2 rfl rfl,
   ((quit_request_precedence (exampleEnv true) (State.initial [])).1 exampleWindow rfl).2⟩

/-- **C14** (override of an automatic backend preference). For every `b`
the call returns `b` when the stored preference is
`WINSYS_GLESBACKEND_PREFERENCE_AUTO` and the stored preference otherwise;
applied to its own result, over the same settings, it returns that result
again; and as a call it leaves the state, the settings store included, as
it was. -/
theorem override_glesbackend_if_auto_result
    (auto : WinsysPreferredGlesBackend) (env : Env) (s : State)
    (b : WinsysPreferredGlesBackend) :
    skin_winsys_override_glesbackend_if_auto auto s b
      = (if skin_winsys_get_preferred_gles_backend s = auto then b
         else skin_winsys_get_preferred_gles_backend s) ∧
    skin_winsys_override_glesbackend_if_auto auto s
        (skin_winsys_override_glesbackend_if_auto auto s b)
      = skin_winsys_override_glesbackend_if_auto auto s b ∧
    (Op.override_glesbackend_if_auto auto b).run env s = s := by
  unfold skin_winsys_override_glesbackend_if_auto
  refine ⟨?_, ?_, rfl⟩
  · by_cases h : skin_winsys_get_preferred_gles_backend s = auto <;> simp [h]
  · by_cases h : skin_winsys_get_preferred_gles_backend s = auto <;> simp [h]

/-- **C15** (error dialog). The call is `skin_winsys_run_ui_update` with
the lambda `showDialog`, the address of `params` and `wait` set. The
closure handed to the window, when run, calls `showErrorDialog` with the
message and the title of the call and does nothing else. With a window the
call constructs a semaphore, hands the closure over with it, and returns
only through `semaphore.acquire()`; without one the state is unchanged, so
the closure is handed to nobody and no dialog is shown. -/
theorem error_dialog_dispatch (env : Env) (s : State) (message title : String) :
    skin_winsys_error_dialog env s message title
      = skin_winsys_run_ui_update env s .showDialog (.params message title) true ∧
    (∀ (env1 : Env) (settings : QSettings),
      (UiWork.generic .showDialog (.params message title)).run env1 settings
        = [.showErrorDialog message title]) ∧
    (∀ window, env.window = some window →
      skin_winsys_error_dialog env s message title
        = s.emit [.semaphoreNew,
            .runOnUiThread (.generic .showDialog (.params message title)) true,
            .semaphoreAcquire]) ∧
    (env.window = none → skin_winsys_error_dialog env s message title = s) := by
  refine ⟨rfl, fun _ _ => rfl, ?_, ?_⟩
  · intro window hw
    simp [skin_winsys_error_dialog, skin_winsys_run_ui_update, hw]
  · intro hw
    simp [skin_winsys_error_dialog, skin_winsys_run_ui_update, hw]

/-- An instance of `error_dialog_dispatch`, with a window and without. -/
theorem error_dialog_dispatch_witness :
    skin_winsys_error_dialog (exampleEnv false) (State.initial []) "disk full" "Error"
      = (State.initial []).emit [.semaphoreNew,
          .runOnUiThread (.generic .showDialog (.params "disk full" "Error")) true,
          .semaphoreAcquire] ∧
    skin_winsys_error_dialog exampleEnvNoWindow (State.initial []) "disk full" "Error"
      = State.initial [] :=
  ⟨(error_dialog_dispatch (exampleEnv false) (State.initial []) "disk full" "Error").2.2.1
     exampleWindow rfl,
   (error_dialog_dispatch exampleEnvNoWindow (State.initial []) "disk full" "Error").2.2.2
     rfl⟩

/-- A first save without a window stores eight zeros. -/
theorem save_without_window (env : Env) (s : State)
    (hw : env.window = none) (hs : s.g.geo_saved = false) :
    (skin_winsys_save_window_geo env s).g.cache = [0, 0, 0, 0, 0, 0, 0, 0] ∧
    (skin_winsys_save_window_geo env s).log = s.log := by
  unfold skin_winsys_save_window_geo skin_winsys_get_window_pos skin_winsys_get_window_size
    skin_winsys_get_frame_pos skin_winsys_get_frame_size
  simp [hw, hs, GlobalState.cache]

/-- **C16** (saving before the window exists). With nothing cached and no
window, `skin_winsys_save_window_geo()` sets `geo_saved` with all eight
cached values 0, calling nothing. After any later sequence of calls, in
any environment, a window with any geometry included, the four getters
return (0, 0) and leave the state as it was. -/
theorem save_without_window_pins_zeros (env : Env) (s : State)
    (hw : env.window = none) (hs : s.g.geo_saved = false)
    (steps : List Step) (env1 : Env) (a b : Int) :
    (skin_winsys_save_window_geo env s).g.geo_saved = true ∧
    (skin_winsys_save_window_geo env s).g.cache = [0, 0, 0, 0, 0, 0, 0, 0] ∧
    skin_winsys_get_window_pos env1 (runSteps (skin_winsys_save_window_geo env s) steps) a b
      = (runSteps (skin_winsys_save_window_geo env s) steps, 0, 0) ∧
    skin_winsys_get_window_size env1 (runSteps (skin_winsys_save_window_geo env s) steps) a b
      = (runSteps (skin_winsys_save_window_geo env s) steps, 0, 0) ∧
    skin_winsys_get_frame_pos env1 (runSteps (skin_winsys_save_window_geo env s) steps) a b
      = (runSteps (skin_winsys_save_window_geo env s) steps, 0, 0) ∧
    skin_winsys_get_frame_size env1 (runSteps (skin_winsys_save_window_geo env s) steps) a b
      = (runSteps (skin_winsys_save_window_geo env s) steps, 0, 0) := by
  have h0 := save_without_window env s hw hs
  have h1 := runSteps_saved steps _ (save_sets_flag env s)
  have h2 := h1.2.trans h0.1
  have h3 := getters_saved env1 _ h1.1 a b
  simp only [GlobalState.cache, List.cons.injEq, and_true] at h2
  obtain ⟨e1, e2, e3, e4, e5, e6, e7, e8⟩ := h2
  rw [h3.1, h3.2.1, h3.2.2.1, h3.2.2.2, e1, e2, e3, e4, e5, e6, e7, e8]
  exact ⟨save_sets_flag env s, h0.1, rfl, rfl, rfl, rfl⟩

/-- An instance of `save_without_window_pins_zeros`: the save is made
before the window exists; later the window is there, at (100, 50), and the
position query still answers (0, 0). -/
theorem save_without_window_pins_zeros_witness :
    exampleEnvNoWindow.window = none ∧
    (State.initial []).g.geo_saved = false ∧
    skin_winsys_get_window_pos (exampleEnv true)
      (runSteps (skin_winsys_save_window_geo exampleEnvNoWindow (State.initial []))
        [.call (exampleEnv true) (.start false),
         .call (exampleEnv true) (.set_window_pos 100 50)]) 7 7
      = (runSteps (skin_winsys_save_window_geo exampleEnvNoWindow (State.initial []))
        [.call (exampleEnv true) (.start false),
         .call (exampleEnv true) (.set_window_pos 100 50)], 0, 0) :=
  ⟨rfl, rfl, (save_without_window_pins_zeros exampleEnvNoWindow (State.initial []) rfl rfl
    [.call (exampleEnv true) (.start false),
     .call (exampleEnv true) (.set_window_pos 100 50)] (exampleEnv true) 7 7).2.2.1⟩


/-! ## The windowless main loop -/

/-- A wake-up at which the signal mask was set and the flag is found
false sends the loop round again. -/
theorem waitLoop_again (env : Env) (k : Wakeup) (ks : List Wakeup) (s : State)
    (hmask : k.sigprocmaskFails = false)
    (hflag : (s.sMainLoopShouldExit || k.quitRequested) = false) :
    waitLoop env (k :: ks) s = waitLoop env ks (s.emit [.lib .waitForWakeup]) := by
  simp only [Bool.or_eq_false_iff] at hflag
  rw [waitLoop]
  cases s with
  | mk g f st l =>
    simp only [] at hflag
    simp [hmask, hflag.1, hflag.2, State.emit]

/-- A wake-up at which the signal mask was set and the flag is found true
ends the loop. -/
theorem waitLoop_leave (env : Env) (k : Wakeup) (ks : List Wakeup) (s : State)
    (hmask : k.sigprocmaskFails = false)
    (hflag : (s.sMainLoopShouldExit || k.quitRequested) = true) :
    waitLoop env (k :: ks) s
      = some { s.emit [.lib .waitForWakeup] with sMainLoopShouldExit := true } := by
  rw [waitLoop]
  simp [hmask, hflag]

/-- The loop is still waiting after wake-ups that all find the flag false. -/
theorem waitLoop_waiting (env : Env) (ks : List Wakeup) :
    ∀ (s : State), (∀ k ∈ ks, k.sigprocmaskFails = false) →
      (∀ k ∈ ks, (s.sMainLoopShouldExit || k.quitRequested) = false) →
      waitLoop env ks s = none := by
  induction ks with
  | nil => intro s _ _; rfl
  | cons k ks ih =>
    intro s hmask hflag
    rw [waitLoop_again env k ks s (hmask k (List.mem_cons_self _ _))
      (hflag k (List.mem_cons_self _ _))]
    exact ih _ (fun j hj => hmask j (List.mem_cons_of_mem _ hj))
      (fun j hj => hflag j (List.mem_cons_of_mem _ hj))

/-- The loop ends at the first wake-up that finds the flag true, having
waited once for every wake-up up to that one. -/
theorem waitLoop_first (env : Env) (pre : List Wakeup) :
    ∀ (s : State) (k : Wakeup) (post : List Wakeup),
      (∀ p ∈ pre, p.sigprocmaskFails = false) → k.sigprocmaskFails = false →
      (∀ p ∈ pre, (s.sMainLoopShouldExit || p.quitRequested) = false) →
      (s.sMainLoopShouldExit || k.quitRequested) = true →
      waitLoop env (pre ++ k :: post) s
        = some { s.emit (List.replicate (pre.length + 1) (.lib .waitForWakeup)) with
                 sMainLoopShouldExit := true } := by
  induction pre with
  | nil =>
    intro s k post _ hk _ hflag
    simpa using waitLoop_leave env k post s hk hflag
  | cons p pre ih =>
    intro s k post hmask hk hpre hflag
    have hp := hpre p (List.mem_cons_self _ _)
    rw [List.cons_append, waitLoop_again env p _ s (hmask p (List.mem_cons_self _ _)) hp]
    have hs : (s.emit [Event.lib LibCall.waitForWakeup]).sMainLoopShouldExit
        = s.sMainLoopShouldExit := rfl
    rw [ih (s.emit [.lib .waitForWakeup]) k post
      (fun j hj => hmask j (List.mem_cons_of_mem _ hj)) hk
      (fun j hj => by rw [hs]; exact hpre j (List.mem_cons_of_mem _ hj))
      (by rw [hs]; exact hflag)]
    simp [State.emit, List.replicate_succ]

/-- The loop itself never starts the Qt event loop. -/
theorem waitLoop_no_exec (env : Env) (ks : List Wakeup) :
    ∀ (s s1 : State), waitLoop env ks s = some s1 →
      ∃ es, s1.log = s.log ++ es ∧ Event.lib .appExec ∉ es := by
  induction ks with
  | nil => intro s s1 h; simp [waitLoop] at h
  | cons k ks ih =>
    intro s s1 h
    unfold waitLoop at h
    split at h
    · cases h; exact ⟨_, rfl, by simp⟩
    · simp only [] at h
      split at h
      · cases h; exact ⟨[.lib .waitForWakeup], rfl, by simp⟩
      · obtain ⟨es, hes, hne⟩ := ih _ _ h
        refine ⟨.lib .waitForWakeup :: es, ?_, by simpa using hne⟩
        rw [hes]; simp [State.emit]


/-- **C13** (windowless main loop). In windowless mode, with the
signal-mask call succeeding before every wait: as long as the wake-ups find
`sMainLoopShouldExit` false the call has not returned, it waits again; at
the first wake-up that finds the flag true it leaves the loop, having
waited once per wake-up, then calls `requestClose` on the
`EmulatorNoQtNoWindow` instance if there is one, and returns; and in no
case does it call `exec()` on the Qt application. -/
theorem windowless_main_loop (env : Env) (s : State) (ks : List Wakeup)
    (hmask : ∀ k ∈ ks, k.sigprocmaskFails = false) :
    ((∀ k ∈ ks, (s.sMainLoopShouldExit || k.quitRequested) = false) →
      skin_winsys_enter_main_loop env s true ks = none) ∧
    (∀ (pre : List Wakeup) (k : Wakeup) (post : List Wakeup), ks = pre ++ k :: post →
      (∀ p ∈ pre, (s.sMainLoopShouldExit || p.quitRequested) = false) →
      (s.sMainLoopShouldExit || k.quitRequested) = true →
      ∃ s1, skin_winsys_enter_main_loop env s true ks = some s1 ∧
        s1.sMainLoopShouldExit = true ∧ s1.g = s.g ∧
        s1.log = s.log ++ (if env.platform = .windows then [.lib .CreateEvent] else [])
          ++ List.replicate (pre.length + 1) (.lib .waitForWakeup)
          ++ (if env.noQtNoWindow = true then [.lib .noQtNoWindow_requestClose] else [])) ∧
    (∀ s1, skin_winsys_enter_main_loop env s true ks = some s1 →
      ∃ es, s1.log = s.log ++ es ∧ Event.lib .appExec ∉ es) := by
  have hflag0 : (if (env.platform == Platform.windows) = true
      then s.emit [Event.lib LibCall.CreateEvent] else s).sMainLoopShouldExit
      = s.sMainLoopShouldExit := by split <;> rfl
  refine ⟨?_, ?_, ?_⟩
  · intro hflag
    unfold skin_winsys_enter_main_loop
    simp only [if_true]
    rw [waitLoop_waiting env ks _ hmask (by rw [hflag0]; exact hflag)]
  · intro pre k post hks hpre hk
    subst hks
    unfold skin_winsys_enter_main_loop
    simp only [if_true]
    rw [waitLoop_first env pre _ k post
      (fun p hp => hmask p (List.mem_append_left _ hp))
      (hmask k (List.mem_append_right _ (List.mem_cons_self _ _)))
      (by rw [hflag0]; exact hpre) (by rw [hflag0]; exact hk)]
    cases hp : env.platform <;> cases hn : env.noQtNoWindow <;>
      simp [State.emit]
  · intro s1 h
    unfold skin_winsys_enter_main_loop at h
    simp only [if_true] at h
    split at h
    · cases h
    · next s2 h2 =>
      obtain ⟨es, hes, hne⟩ := waitLoop_no_exec env ks _ _ h2
      by_cases hp : (env.platform == Platform.windows) = true
      · simp only [hp, if_true] at hes
        split at h <;> cases h
        · exact ⟨.lib .CreateEvent :: es ++ [.lib .noQtNoWindow_requestClose],
            by simp [State.emit, hes], by simpa using hne⟩
        · exact ⟨.lib .CreateEvent :: es, by simp [State.emit, hes], by simpa using hne⟩
      · simp only [hp, if_false] at hes
        split at h <;> cases h
        · exact ⟨es ++ [.lib .noQtNoWindow_requestClose],
            by simp [State.emit, hes], by simpa using hne⟩
        · exact ⟨es, hes, hne⟩

/-- An instance of `windowless_main_loop`: three wake-ups, the quit request
arriving before the second; the loop waits twice and then closes the
windowless instance. -/
theorem windowless_main_loop_witness :
    (∀ k ∈ [Wakeup.mk false false, Wakeup.mk false true, Wakeup.mk false false],
      k.sigprocmaskFails = false) ∧
    ∃ s1, skin_winsys_enter_main_loop { exampleEnvNoWindow with noQtNoWindow := true }
        (State.initial []) true
        [Wakeup.mk false false, Wakeup.mk false true, Wakeup.mk false false] = some s1 ∧
      s1.sMainLoopShouldExit = true ∧ s1.g = (State.initial []).g ∧
      s1.log = [.lib .waitForWakeup, .lib .waitForWakeup, .lib .noQtNoWindow_requestClose] :=
  ⟨by decide,
   (windowless_main_loop { exampleEnvNoWindow with noQtNoWindow := true } (State.initial [])
     [Wakeup.mk false false, Wakeup.mk false true, Wakeup.mk false false] (by decide)).2.1
     [Wakeup.mk false false] (Wakeup.mk false true) [Wakeup.mk false false] rfl
     (by decide) rfl⟩

end WinsysQt

namespace VideoPlayer

/-! ## The render target -/

/-- Clearing bit 1 of a natural number, in arithmetic. -/
theorem ldiff_two (n : Nat) : Nat.ldiff n 2 = n - 2 * (n / 2 % 2) := by
  have h2 : (2 : Nat) = Nat.bit false (Nat.bit true 0) := by rfl
  have hn : n = Nat.bit n.bodd (Nat.bit n.div2.bodd n.div2.div2) := by
    rw [Nat.bit_decomp, Nat.bit_decomp]
  have hz : ∀ m, Nat.ldiff m 0 = m := by
    intro m; simp [Nat.ldiff]
  have key : Nat.ldiff n 2 = Nat.bit n.bodd (Nat.bit false n.div2.div2) := by
    conv_lhs => rw [hn, h2]
    rw [Nat.ldiff_bit, Nat.ldiff_bit, hz]
    simp
  rw [key]
  have e1 := Nat.bit_val n.bodd (Nat.bit false n.div2.div2)
  have e2 := Nat.bit_val false n.div2.div2
  have e3 := Nat.bit_val n.bodd (Nat.bit n.div2.bodd n.div2.div2)
  have e4 := Nat.bit_val n.div2.bodd n.div2.div2
  rw [← hn] at e3
  rw [e1, e2]
  rw [e4] at e3
  cases ha : n.bodd <;> cases hb : n.div2.bodd <;> simp [ha, hb] at e3 ⊢ <;> omega

/-- On a value that is not negative, `& -3` clears the bit of weight 2. -/
theorem land_neg_three_eq (x : Int) (hx : 0 ≤ x) :
    Int.land x (-3) = x - 2 * (x / 2 % 2) := by
  obtain ⟨n, rfl⟩ := Int.eq_ofNat_of_zero_le hx
  have : Int.land (n : Int) (-3) = ((Nat.ldiff n 2 : Nat) : Int) := rfl
  rw [this, ldiff_two]
  omega

/-- On a value that is not negative, `& -3` gives a value between 0 and it. -/
theorem land_neg_three (x : Int) (hx : 0 ≤ x) :
    0 ≤ Int.land x (-3) ∧ Int.land x (-3) ≤ x := by
  rw [land_neg_three_eq x hx]
  omega

/-- Rounding to the nearest integer keeps an integer. -/
theorem roundHalfEven_intCast (m : Int) : roundHalfEven (m : Rat) = m := by
  simp [roundHalfEven]

/-- Rounding to the nearest integer does not pass an integer above. -/
theorem roundHalfEven_le (x : Rat) (m : Int) (h : x ≤ m) : roundHalfEven x ≤ m := by
  rcases eq_or_lt_of_le h with h | h
  · rw [h, roundHalfEven_intCast]
  · have hf : ⌊x⌋ < m := Int.floor_lt.mpr h
    unfold roundHalfEven
    simp only []
    split_ifs <;> omega

/-- Rounding to the nearest integer does not go below the floor. -/
theorem roundHalfEven_nonneg (x : Rat) (h : 0 ≤ x) : 0 ≤ roundHalfEven x := by
  have hf : 0 ≤ ⌊x⌋ := Int.floor_nonneg.mpr h
  unfold roundHalfEven
  simp only []
  split_ifs <;> omega

/-- Below 2 to the 24 the spacing of `float` values is 1 or a power of
one half. -/
theorem F32.ulp_small (q : Rat) (h : |q| < 2 ^ 24) :
    ∃ k : Nat, F32.ulp q * 2 ^ k = 1 := by
  have hlog : Int.log 2 |q| < 24 := by
    rcases eq_or_lt_of_le (abs_nonneg q) with h0 | h0
    · rw [← h0, Int.log_zero_right]; norm_num
    · refine (Int.lt_zpow_iff_log_lt (by norm_num) h0).mp ?_
      exact_mod_cast h
  have he : max (Int.log 2 |q|) (-126) ≤ 23 := by omega
  refine ⟨(23 - max (Int.log 2 |q|) (-126)).toNat, ?_⟩
  unfold F32.ulp
  rw [← zpow_natCast, ← zpow_add₀ (by norm_num : (2 : Rat) ≠ 0)]
  have : max (Int.log 2 |q|) (-126) - 23
      + ((23 - max (Int.log 2 |q|) (-126)).toNat : Int) = 0 := by omega
  rw [this, zpow_zero]

/-- An exact value between 0 and an integer below 2 to the 24 is rounded
to a `float` between 0 and that integer. -/
theorem F32.round_le (q : Rat) (n : Int) (h0 : 0 ≤ q) (hq : q ≤ n) (hn : n < 2 ^ 24) :
    ∃ v, F32.round q = some v ∧ 0 ≤ v ∧ v ≤ n := by
  have habs : |q| < 2 ^ 24 := by
    rw [abs_of_nonneg h0]
    exact lt_of_le_of_lt hq (by exact_mod_cast hn)
  obtain ⟨k, hk⟩ := F32.ulp_small q habs
  have hpow : (0 : Rat) < 2 ^ k := by positivity
  have hu : 0 < F32.ulp q := by unfold F32.ulp; positivity
  have hdiv : q / F32.ulp q = q * 2 ^ k := by
    field_simp
    rw [mul_assoc, mul_comm ((2 : Rat) ^ k), hk, mul_one]
  have hr1 : roundHalfEven (q * 2 ^ k) ≤ n * 2 ^ k :=
    roundHalfEven_le _ _ (by push_cast; exact mul_le_mul_of_nonneg_right hq hpow.le)
  have hr0 : 0 ≤ roundHalfEven (q * 2 ^ k) :=
    roundHalfEven_nonneg _ (mul_nonneg h0 hpow.le)
  have hv0 : (0 : Rat) ≤ (roundHalfEven (q * 2 ^ k) : Rat) * F32.ulp q :=
    mul_nonneg (by exact_mod_cast hr0) hu.le
  have hv1 : (roundHalfEven (q * 2 ^ k) : Rat) * F32.ulp q ≤ n := by
    have : (roundHalfEven (q * 2 ^ k) : Rat) ≤ (n : Rat) * 2 ^ k := by exact_mod_cast hr1
    calc (roundHalfEven (q * 2 ^ k) : Rat) * F32.ulp q
        ≤ ((n : Rat) * 2 ^ k) * F32.ulp q := mul_le_mul_of_nonneg_right this hu.le
      _ = n := by rw [mul_assoc, mul_comm ((2 : Rat) ^ k), hk, mul_one]
  refine ⟨(roundHalfEven (q * 2 ^ k) : Rat) * F32.ulp q, ?_, hv0, hv1⟩
  unfold F32.round
  simp only [hdiv]
  rw [if_pos]
  rw [abs_of_nonneg hv0]
  calc (roundHalfEven (q * 2 ^ k) : Rat) * F32.ulp q ≤ n := hv1
    _ < 2 ^ 24 := by exact_mod_cast hn
    _ < 2 ^ 128 := by norm_num

/-- An integer from 0 to below 2 to the 24 is a `float`. -/
theorem F32.ofInt_exact (n : Int) (h0 : 0 ≤ n) (hn : n < 2 ^ 24) :
    F32.ofInt n = some (n : Rat) := by
  have hq : (0 : Rat) ≤ (n : Rat) := by exact_mod_cast h0
  have habs : |(n : Rat)| < 2 ^ 24 := by
    rw [abs_of_nonneg hq]; exact_mod_cast hn
  obtain ⟨k, hk⟩ := F32.ulp_small n habs
  have hu : 0 < F32.ulp n := by unfold F32.ulp; positivity
  have hdiv : (n : Rat) / F32.ulp n = ((n * 2 ^ k : Int) : Rat) := by
    field_simp
    rw [mul_assoc, mul_comm ((2 : Rat) ^ k), hk, mul_one]
  unfold F32.ofInt F32.round
  simp only [hdiv, roundHalfEven_intCast]
  have hv : (((n * 2 ^ k : Int) : Rat)) * F32.ulp n = n := by
    push_cast
    rw [mul_assoc, mul_comm ((2 : Rat) ^ k), hk, mul_one]
  rw [hv, if_pos]
  rw [abs_of_nonneg hq]
  calc (n : Rat) < 2 ^ 24 := by exact_mod_cast hn
    _ < 2 ^ 128 := by norm_num


/-- A value that is not negative is rounded to a `float` that is not
negative. -/
theorem F32.round_nonneg (q v : Rat) (h0 : 0 ≤ q) (h : F32.round q = some v) : 0 ≤ v := by
  have hu : 0 < F32.ulp q := by unfold F32.ulp; positivity
  unfold F32.round at h
  simp only [] at h
  split at h
  · cases h
    exact mul_nonneg (by exact_mod_cast roundHalfEven_nonneg _ (div_nonneg h0 hu.le)) hu.le
  · cases h

/-- The conversion `(int)` of a `float` from 0 to below an `int` bound is
its floor. -/
theorem toInt_floor (x : Rat) (h0 : 0 ≤ x) (h1 : x < 2 ^ 31) :
    toInt x = some ⌊x⌋ ∧ 0 ≤ ⌊x⌋ := by
  have hf0 : 0 ≤ ⌊x⌋ := Int.floor_nonneg.mpr h0
  have hf1 : ⌊x⌋ < 2147483648 := Int.floor_lt.mpr (by push_cast; linarith)
  refine ⟨?_, hf0⟩
  unfold toInt checkedInt intLimit
  simp only [h0, if_true]
  rw [if_pos ⟨by omega, hf1⟩]

theorem checkedInt_small (n : Int) (h0 : 0 ≤ n) (h1 : n < 2 ^ 24) :
    checkedInt n = some n := by
  unfold checkedInt intLimit
  rw [if_pos ⟨by omega, by omega⟩]


/-- The tail of the call, once `w` and `h` are settled within the widget. -/
theorem sync_tail (W H w h : Int) (hW : W < 2 ^ 24) (hH : H < 2 ^ 24)
    (h1 : 0 ≤ w) (h2 : w ≤ W) (h3 : 0 ≤ h) (h4 : h ≤ H) :
    (do
      let dx ← checkedInt (W - w)
      let dy ← checkedInt (H - h)
      let x := Int.tdiv dx 2
      let y := Int.tdiv dy 2
      let calls : List WidgetCall :=
        if W ≠ w ∨ H ≠ h then [.move x y, .setFixedSize w h] else []
      pure (w, h, calls) : Option (Int × Int × List WidgetCall))
    = some (w, h, if (w, h) ≠ (W, H) then
        [.move ((W - w) / 2) ((H - h) / 2), .setFixedSize w h] else []) := by
  rw [checkedInt_small (W - w) (by omega) (by omega),
    checkedInt_small (H - h) (by omega) (by omega)]
  simp only [Option.some_bind, Option.pure_def, Option.bind_eq_bind]
  rw [Int.tdiv_eq_ediv (by omega) (by norm_num), Int.tdiv_eq_ediv (by omega) (by norm_num)]
  by_cases hc : W ≠ w ∨ H ≠ h
  · have : (w, h) ≠ (W, H) := by
      intro he
      rcases hc with hc | hc
      · exact hc (Prod.mk.inj he).1.symm
      · exact hc (Prod.mk.inj he).2.symm
    simp [hc, this]
  · push_neg at hc
    simp [hc.1, hc.2]

/-- **C17**, as the code has it (the render target fits the widget). For a
widget of width `W` and height `H` from 0 to below 2 to the 24, which
`float` holds exactly, and a positive sample aspect ratio whose `float`
product `p` with the height is below 2 to the 31, so that `(int)` is
defined on it: the call is defined, the outputs `w` and `h` satisfy
`0 ≤ w ≤ W` and `0 ≤ h ≤ H`, whatever the outputs held and whatever the
video size is, and `move` and `setFixedSize` are called, with the offsets
`((W - w) / 2, (H - h) / 2)` and the size `(w, h)`, exactly when `(w, h)`
differs from `(W, H)`. -/
theorem syncRenderTargetSize_fits (W H : Int) (r p : Rat) (vw vh ow oh : Int)
    (hW0 : 0 ≤ W) (hW : W < 2 ^ 24) (hH0 : 0 ≤ H) (hH : H < 2 ^ 24) (hr : 0 < r)
    (hp : F32.mul H r = some p) (hlim : p < 2 ^ 31) :
    ∃ w h, syncRenderTargetSize W H r vw vh ow oh
        = some (w, h, if (w, h) ≠ (W, H) then
            [.move ((W - w) / 2) ((H - h) / 2), .setFixedSize w h] else []) ∧
      0 ≤ w ∧ w ≤ W ∧ 0 ≤ h ∧ h ≤ H := by
  have hHr : (0 : Rat) ≤ (H : Rat) * r := mul_nonneg (by exact_mod_cast hH0) hr.le
  have hp0 : 0 ≤ p := F32.round_nonneg _ p hHr hp
  obtain ⟨hc, hc0⟩ := toInt_floor p hp0 hlim
  obtain ⟨a1, b1⟩ := land_neg_three _ hc0
  have hstart : syncRenderTargetSize W H r vw vh ow oh
      = (do
        let wh ← (if Int.land ⌊p⌋ (-3) > W then do
            let wf ← F32.ofInt W
            let q ← F32.div wf r
            let c1 ← toInt q
            pure (W, Int.land c1 (-3))
          else pure (Int.land ⌊p⌋ (-3), H) : Option (Int × Int))
        let dx ← checkedInt (W - wh.1)
        let dy ← checkedInt (H - wh.2)
        let x := Int.tdiv dx 2
        let y := Int.tdiv dy 2
        let calls : List WidgetCall :=
          if W ≠ wh.1 ∨ H ≠ wh.2 then [.move x y, .setFixedSize wh.1 wh.2] else []
        pure (wh.1, wh.2, calls)) := by
    unfold syncRenderTargetSize
    simp only [F32.ofInt_exact H hH0 hH, Option.some_bind, Option.bind_eq_bind, hp, hc]
  rw [hstart]
  by_cases hgt : Int.land ⌊p⌋ (-3) > W
  · have hWp : (W : Rat) < p := by
      have : W < ⌊p⌋ := lt_of_lt_of_le hgt b1
      exact lt_of_lt_of_le (by exact_mod_cast this) (Int.floor_le p)
    have hWle : (W : Rat) ≤ (H : Rat) * r := by
      by_contra hcon
      push_neg at hcon
      obtain ⟨v, hv, _, hvW⟩ := F32.round_le _ W hHr hcon.le hW
      have hpv : p = v := by
        have := hp
        unfold F32.mul at this
        rw [hv] at this
        exact (Option.some.inj this).symm
      rw [hpv] at hWp
      exact absurd hvW (not_le.mpr hWp)
    have hq0 : (0 : Rat) ≤ (W : Rat) / r := div_nonneg (by exact_mod_cast hW0) hr.le
    have hq1 : (W : Rat) / r ≤ (H : Rat) := (div_le_iff₀ hr).mpr hWle
    obtain ⟨v, hv, hv0, hvH⟩ := F32.round_le _ H hq0 hq1 hH
    have hHq : (H : Rat) < 2 ^ 24 := by exact_mod_cast hH
    have hvlim : v < 2 ^ 31 := by
      have : (2 : Rat) ^ 24 < 2 ^ 31 := by norm_num
      linarith
    obtain ⟨hc1, hc10⟩ := toInt_floor v hv0 hvlim
    obtain ⟨a2, b2⟩ := land_neg_three _ hc10
    have hfl : ⌊v⌋ ≤ H := by
      have : (⌊v⌋ : Rat) ≤ (H : Rat) := le_trans (Int.floor_le v) hvH
      exact_mod_cast this
    have hdiv : F32.div (W : Rat) r = some v := by
      unfold F32.div
      rw [if_neg hr.ne', hv]
    refine ⟨W, Int.land ⌊v⌋ (-3), ?_, hW0, le_rfl, a2, b2.trans hfl⟩
    rw [if_pos hgt, F32.ofInt_exact W hW0 hW]
    simp only [Option.some_bind, Option.bind_eq_bind, Option.pure_def, hdiv, hc1]
    exact sync_tail W H W _ hW hH hW0 le_rfl a2 (b2.trans hfl)
  · refine ⟨Int.land ⌊p⌋ (-3), H, ?_, a1, not_lt.mp hgt, hH0, le_rfl⟩
    rw [if_neg hgt]
    simp only [Option.some_bind, Option.bind_eq_bind, Option.pure_def]
    exact sync_tail W H _ H hW hH a1 (not_lt.mp hgt) hH0 le_rfl


/-- The rounding of a value whose binary exponent `e` is known. -/
theorem F32.round_eval (q : Rat) (e m : Int) (he : -126 ≤ e)
    (h1 : (2 : Rat) ^ e ≤ |q|) (h2 : |q| < (2 : Rat) ^ (e + 1))
    (hm : roundHalfEven (q / (2 : Rat) ^ (e - 23)) = m)
    (hlim : |(m : Rat) * (2 : Rat) ^ (e - 23)| < 2 ^ 128) :
    F32.round q = some ((m : Rat) * (2 : Rat) ^ (e - 23)) := by
  have hpos : 0 < |q| := lt_of_lt_of_le (by positivity) h1
  have hlog : Int.log 2 |q| = e := by
    apply le_antisymm
    · have := (Int.lt_zpow_iff_log_lt (by norm_num : 1 < 2) hpos).mp
        (by exact_mod_cast h2 : |q| < ((2 : Nat) : Rat) ^ (e + 1))
      omega
    · exact (Int.zpow_le_iff_le_log (by norm_num : 1 < 2) hpos).mp
        (by exact_mod_cast h1 : ((2 : Nat) : Rat) ^ e ≤ |q|)
  have hulp : F32.ulp q = (2 : Rat) ^ (e - 23) := by
    unfold F32.ulp
    rw [hlog, max_eq_left he]
  unfold F32.round
  simp only [hulp, hm]
  rw [if_pos hlim]

theorem roundHalfEven_eval_16777219 : roundHalfEven (16777219 / 2) = 8388610 := by
  have hf : ⌊(16777219 / 2 : Rat)⌋ = 8388609 := by
    rw [Int.floor_eq_iff]; norm_num
  unfold roundHalfEven
  simp only [hf]
  norm_num

/-- The `int` 16777219 has no `float` of its own; it becomes 16777220. -/
theorem F32.ofInt_16777219 : F32.ofInt 16777219 = some 16777220 := by
  have h := F32.round_eval 16777219 24 8388610 (by norm_num) (by norm_num) (by norm_num)
    (by norm_num [roundHalfEven_eval_16777219]) (by norm_num)
  unfold F32.ofInt
  norm_num at h ⊢
  exact h

theorem F32.round_16777220 : F32.round 16777220 = some 16777220 := by
  have h := F32.round_eval 16777220 24 8388610 (by norm_num) (by norm_num) (by norm_num)
    (by norm_num; exact_mod_cast roundHalfEven_intCast 8388610) (by norm_num)
  norm_num at h ⊢
  exact h

theorem F32.round_4800000000 : F32.round 4800000000 = some 4800000000 := by
  have h := F32.round_eval 4800000000 32 9375000 (by norm_num) (by norm_num) (by norm_num)
    (by norm_num; exact_mod_cast roundHalfEven_intCast 9375000) (by norm_num)
  norm_num at h ⊢
  exact h


theorem roundHalfEven_down (x : Rat) (f : Int) (h1 : (f : Rat) ≤ x) (h2 : x - f < 1 / 2) :
    roundHalfEven x = f := by
  have hf : ⌊x⌋ = f := by rw [Int.floor_eq_iff]; exact ⟨h1, by linarith⟩
  unfold roundHalfEven
  simp only [hf, h2, if_true]

theorem roundHalfEven_up (x : Rat) (f : Int) (h1 : 1 / 2 < x - f) (h2 : x < f + 1) :
    roundHalfEven x = f + 1 := by
  have hf : ⌊x⌋ = f := by rw [Int.floor_eq_iff]; exact ⟨by linarith, h2⟩
  unfold roundHalfEven
  simp only [hf, not_lt.mpr h1.le, h1, if_true, if_false]

/-- The `float` nearest to 4/3, the value of `(float)(4.0 / 3)`. -/
theorem F32.round_four_thirds : F32.round (4 / 3) = some (11184811 / 8388608) := by
  have h := F32.round_eval (4 / 3) 0 11184811 (by norm_num)
    (by norm_num [abs_of_nonneg]) (by norm_num [abs_of_nonneg])
    (by
      have := roundHalfEven_up ((4 / 3 : Rat) / (2 : Rat) ^ ((0 : Int) - 23)) 11184810
        (by norm_num) (by norm_num)
      norm_num at this ⊢
      exact this)
    (by norm_num [abs_of_nonneg])
  norm_num at h ⊢
  exact h

theorem F32.mul_480_four_thirds : F32.mul 480 (11184811 / 8388608) = some 640 := by
  have h := F32.round_eval (480 * (11184811 / 8388608)) 9 10485760 (by norm_num)
    (by norm_num [abs_of_nonneg]) (by norm_num [abs_of_nonneg])
    (by
      have := roundHalfEven_down ((480 * (11184811 / 8388608) : Rat)
        / (2 : Rat) ^ ((9 : Int) - 23)) 10485760 (by norm_num) (by norm_num)
      norm_num at this ⊢
      exact this)
    (by norm_num)
  unfold F32.mul
  norm_num at h ⊢
  exact h

theorem F32.div_300_four_thirds : F32.div 300 (11184811 / 8388608) = some 225 := by
  have h := F32.round_eval (300 / (11184811 / 8388608)) 7 14745600 (by norm_num)
    (by norm_num [abs_of_nonneg]) (by norm_num [abs_of_nonneg])
    (by
      have := roundHalfEven_up ((300 / (11184811 / 8388608) : Rat)
        / (2 : Rat) ^ ((7 : Int) - 23)) 14745599 (by norm_num) (by norm_num)
      norm_num at this ⊢
      exact this)
    (by norm_num)
  unfold F32.div
  norm_num at h ⊢
  exact h

/-- The conversion `(int)` of a `float` that holds a value of `int` from 0
up gives that value. -/
theorem toInt_intCast (n : Int) (h0 : 0 ≤ n) (h1 : n < 2147483648) :
    toInt (n : Rat) = some n := by
  have hx : (0 : Rat) ≤ (n : Rat) := by exact_mod_cast h0
  unfold toInt checkedInt intLimit
  simp only [hx, if_true, Int.floor_intCast]
  rw [if_pos ⟨by omega, h1⟩]

/-- The call when the width is the limit, step by step. -/
theorem sync_eval_wide (W H : Int) (r hf p : Rat) (c : Int) (wf q : Rat) (c1 dx dy : Int)
    (vw vh ow oh : Int)
    (h1 : F32.ofInt H = some hf) (h2 : F32.mul hf r = some p) (h3 : toInt p = some c)
    (h4 : Int.land c (-3) > W) (h5 : F32.ofInt W = some wf) (h6 : F32.div wf r = some q)
    (h7 : toInt q = some c1) (h8 : checkedInt (W - W) = some dx)
    (h9 : checkedInt (H - Int.land c1 (-3)) = some dy) :
    syncRenderTargetSize W H r vw vh ow oh
      = some (W, Int.land c1 (-3),
          if W ≠ W ∨ H ≠ Int.land c1 (-3) then
            [.move (Int.tdiv dx 2) (Int.tdiv dy 2), .setFixedSize W (Int.land c1 (-3))]
          else []) := by
  unfold syncRenderTargetSize
  simp only [h1, Option.some_bind, Option.bind_eq_bind, h2, h3]
  simp only [h4, if_true, h5, h6, h7, Option.some_bind, Option.bind_eq_bind,
    Option.pure_def, h8, h9]

/-- The call when the first conversion `(int)` is undefined. -/
theorem sync_eval_undefined (W H : Int) (r hf p : Rat) (vw vh ow oh : Int)
    (h1 : F32.ofInt H = some hf) (h2 : F32.mul hf r = some p) (h3 : toInt p = none) :
    syncRenderTargetSize W H r vw vh ow oh = none := by
  unfold syncRenderTargetSize
  simp only [h1, Option.some_bind, Option.bind_eq_bind, h2, h3, Option.none_bind]

/-- The call on a widget of 300 by 480 with the sample aspect ratio
`(float)(4.0 / 3)`: the width is the limit, the `float` quotient is 225
exactly, and the widget is moved down by 127. -/
theorem syncRenderTargetSize_narrow :
    syncRenderTargetSize 300 480 (11184811 / 8388608) 1280 720 0 0
      = some (300, 225, [.move 0 127, .setFixedSize 300 225]) := by
  have e1 : F32.ofInt 480 = some 480 := by
    simpa using F32.ofInt_exact 480 (by norm_num) (by norm_num)
  have e2 : F32.ofInt 300 = some 300 := by
    simpa using F32.ofInt_exact 300 (by norm_num) (by norm_num)
  have e3 : toInt 640 = some 640 := by
    have h := toInt_intCast 640 (by norm_num) (by norm_num)
    norm_num at h ⊢
    exact h
  have e4 : toInt 225 = some 225 := by
    have h := toInt_intCast 225 (by norm_num) (by norm_num)
    norm_num at h ⊢
    exact h
  have e5 : Int.land 640 (-3) = 640 := by rw [land_neg_three_eq 640 (by norm_num)]; norm_num
  have e6 : Int.land 225 (-3) = 225 := by rw [land_neg_three_eq 225 (by norm_num)]; norm_num
  have e7 : checkedInt (300 - 300) = some 0 := by decide
  have e8 : checkedInt (480 - Int.land 225 (-3)) = some 255 := by rw [e6]; decide
  have h := sync_eval_wide 300 480 (11184811 / 8388608) 480 640 640 300 225 225 0 255
    1280 720 0 0 e1 F32.mul_480_four_thirds e3 (by rw [e5]; norm_num) e2
    F32.div_300_four_thirds e4 e7 e8
  rw [e6] at h
  rw [h, if_pos (Or.inr (by norm_num))]
  have d1 : Int.tdiv 0 2 = 0 := by decide
  have d2 : Int.tdiv 255 2 = 127 := by decide
  rw [d1, d2]


/-- An instance of `syncRenderTargetSize_fits`: a widget of 300 by 480 and
the ratio `(float)(4.0 / 3)`, whose `float` product with 480 is 640. -/
theorem syncRenderTargetSize_fits_witness :
    (0 : Int) ≤ 300 ∧ (300 : Int) < 2 ^ 24 ∧ (0 : Int) ≤ 480 ∧ (480 : Int) < 2 ^ 24 ∧
    (0 : Rat) < 11184811 / 8388608 ∧
    F32.mul ((480 : Int) : Rat) (11184811 / 8388608) = some 640 ∧ (640 : Rat) < 2 ^ 31 ∧
    ∃ w h, syncRenderTargetSize 300 480 (11184811 / 8388608) 1280 720 0 0
        = some (w, h, if (w, h) ≠ (300, 480) then
            [.move ((300 - w) / 2) ((480 - h) / 2), .setFixedSize w h] else []) ∧
      0 ≤ w ∧ w ≤ 300 ∧ 0 ≤ h ∧ h ≤ 480 :=
  ⟨by norm_num, by norm_num, by norm_num, by norm_num, by norm_num,
   by simpa using F32.mul_480_four_thirds, by norm_num,
   syncRenderTargetSize_fits 300 480 (11184811 / 8388608) 640 1280 720 0 0
     (by norm_num) (by norm_num) (by norm_num) (by norm_num) (by norm_num)
     (by simpa using F32.mul_480_four_thirds) (by norm_num)⟩

/-- **C17**, as stated, fails on the code in two ways. A widget of
16777219 by 16777219 with ratio 1: the `int` 16777219 becomes the `float`
16777220, and the call returns the height 16777220, above the height of
the widget. A widget of 640 by 480 with ratio 10000000: the `float`
product is 4800000000, outside the range of `int`, so the conversion
`(int)` is undefined and the call returns nothing the claim could hold of
(the conversion instruction of x86 gives the least `int`, a negative
width). -/
theorem syncRenderTargetSize_counterexample :
    syncRenderTargetSize 16777219 16777219 1 1280 720 0 0
      = some (16777219, 16777220, [.move 0 0, .setFixedSize 16777219 16777220]) ∧
    ¬ ((16777220 : Int) ≤ 16777219) ∧
    syncRenderTargetSize 640 480 10000000 1280 720 0 0 = none := by
  refine ⟨?_, by norm_num, ?_⟩
  · have m1 : F32.mul 16777220 1 = some 16777220 := by
      unfold F32.mul; simpa using F32.round_16777220
    have d1 : F32.div 16777220 1 = some 16777220 := by
      unfold F32.div; simpa using F32.round_16777220
    have t1 : toInt 16777220 = some 16777220 := by
      have h := toInt_intCast 16777220 (by norm_num) (by norm_num)
      norm_num at h ⊢
      exact h
    have l1 : Int.land 16777220 (-3) = 16777220 := by
      rw [land_neg_three_eq 16777220 (by norm_num)]; norm_num
    have c1 : checkedInt (16777219 - 16777219) = some 0 := by decide
    have c2 : checkedInt (16777219 - Int.land 16777220 (-3)) = some (-1) := by
      rw [l1]; decide
    have h := sync_eval_wide 16777219 16777219 1 16777220 16777220 16777220 16777220
      16777220 16777220 0 (-1) 1280 720 0 0 F32.ofInt_16777219 m1 t1
      (by rw [l1]; norm_num) F32.ofInt_16777219 d1 t1 c1 c2
    rw [l1] at h
    rw [h, if_pos (Or.inr (by norm_num))]
    have e1 : Int.tdiv 0 2 = 0 := by decide
    have e2 : Int.tdiv (-1) 2 = 0 := by decide
    rw [e1, e2]
  · have e1 : F32.ofInt 480 = some 480 := by
      simpa using F32.ofInt_exact 480 (by norm_num) (by norm_num)
    have m1 : F32.mul 480 10000000 = some 4800000000 := by
      unfold F32.mul
      have : (480 : Rat) * 10000000 = 4800000000 := by norm_num
      rw [this]; exact F32.round_4800000000
    have t1 : toInt 4800000000 = none := by
      have hf : ⌊(4800000000 : Rat)⌋ = 4800000000 := by
        exact_mod_cast Int.floor_intCast (4800000000 : Int)
      unfold toInt checkedInt intLimit
      simp only [show (0 : Rat) ≤ 4800000000 by norm_num, if_true, hf]
      decide
    exact sync_eval_undefined 640 480 10000000 480 4800000000 1280 720 0 0 e1 m1 t1

end VideoPlayer
